import Mathlib

/-!
Verification development for the CardOS v5 driver
(src/src/libopensc/card-cardos5.c).

The driver's pure core — the TLV writers, the ARL/FCP codecs, the EC
signature post-processor and the decision logic of the facade
operations — is embedded shallowly below.  Byte strings are `List Nat`
(each element a byte value), buffers are a capacity plus the bytes
written so far, and `size_t` subtraction is modelled exactly, i.e.
modulo 2^64, so that the unsigned-underflow behaviour of the source is
preserved.

Constants defined in headers that are not part of the sources at hand
(card-cardos5.h and the host stack's opensc.h / errors.h) are modelled
from the spec; each such definition carries a doc comment saying so.
-/

namespace Cardos5

/-- Modelled from the spec: numeric error codes live in the host stack's
errors.h, which is not among the sources; the codes are modelled as
pairwise-distinct integers. -/
def SC_SUCCESS : Int := 0

/-- Modelled from the spec: see `SC_SUCCESS`. -/
def SC_ERROR_INVALID_ARGUMENTS : Int := -1301

/-- Modelled from the spec: see `SC_SUCCESS`. -/
def SC_ERROR_BUFFER_TOO_SMALL : Int := -1302

/-- Modelled from the spec: see `SC_SUCCESS`. -/
def SC_ERROR_WRONG_LENGTH : Int := -1303

/-- Modelled from the spec: see `SC_SUCCESS`. -/
def SC_ERROR_NO_CARD_SUPPORT : Int := -1304

/-- Modelled from the spec: see `SC_SUCCESS`. -/
def SC_ERROR_INCORRECT_PARAMETERS : Int := -1305

/-- Modelled from the spec: see `SC_SUCCESS`. -/
def SC_ERROR_OUT_OF_MEMORY : Int := -1306

/-- Modelled from the spec: see `SC_SUCCESS`. -/
def SC_ERROR_UNKNOWN_DATA_RECEIVED : Int := -1307

/-- Modelled from the spec: see `SC_SUCCESS`. -/
def SC_ERROR_NOT_SUPPORTED : Int := -1308

/-- Modelled from the spec: see `SC_SUCCESS`. -/
def SC_ERROR_CARD_CMD_FAILED : Int := -1309

/-- Modelled from the spec §4.2.1: ARL tag values come from
card-cardos5.h, which is not among the sources; the AM-byte scope tag
is 0x80. -/
def ARL_ACCESS_MODE_BYTE_TAG : Nat := 0x80

/-- Modelled from the spec §4.2.1: AM-byte scope length octet. -/
def ARL_ACCESS_MODE_BYTE_LEN : Nat := 0x01

/-- Modelled from the spec §4.2.1: command scope tag 0x84. -/
def ARL_COMMAND_TAG : Nat := 0x84

/-- Modelled from the spec §4.2.1: Always predicate tag 0x90. -/
def ARL_ALWAYS_TAG : Nat := 0x90

/-- Modelled from the spec §4.2.1: Always predicate length octet. -/
def ARL_ALWAYS_LEN : Nat := 0x00

/-- Modelled from the spec §4.2.1: Never predicate tag 0x97. -/
def ARL_NEVER_TAG : Nat := 0x97

/-- Modelled from the spec §4.2.1: Never predicate length octet. -/
def ARL_NEVER_LEN : Nat := 0x00

/-- Modelled from the spec §4.2.1: UserAuth predicate tag 0xA4. -/
def ARL_USER_AUTH_TAG : Nat := 0xA4

/-- Modelled from the spec §4.2.1: UserAuth predicate length octet. -/
def ARL_USER_AUTH_LEN : Nat := 0x06

/-- Modelled from the source comment at parse_df_arl: the MF ARL ends
with the four bytes 0x81 0x00 0x90 0x00; hence the dummy tag is 0x81. -/
def ARL_DUMMY_TAG : Nat := 0x81

/-- Modelled from the source comment at parse_df_arl: dummy length 0. -/
def ARL_DUMMY_LEN : Nat := 0x00

/-- Modelled from the spec §4.2.1: CRT pin-reference tag 0x83. -/
def CRT_TAG_PINREF : Nat := 0x83

/-- Modelled from the spec §4.2.1: CRT pin-reference length octet. -/
def CRT_LEN_PINREF : Nat := 0x01

/-- Modelled from the spec §4.2.1: CRT key-usage-qualifier tag 0x95. -/
def CRT_TAG_KUQ : Nat := 0x95

/-- Modelled from the spec §4.2.1: CRT key-usage-qualifier length. -/
def CRT_LEN_KUQ : Nat := 0x01

/-- Modelled from the spec §4.5: CRT key-reference tag used by
MANAGE SECURITY ENVIRONMENT bodies. -/
def CRT_TAG_KEYREF : Nat := 0x84

/-- Modelled from the spec: the fixed key-usage-qualifier byte meaning
user authentication; exact value is in the missing header, the claims
only need a fixed byte. -/
def KUQ_USER_AUTH : Nat := 0x08

/-- Modelled from the spec: the key-usage-qualifier byte used in
MANAGE SECURITY ENVIRONMENT bodies. -/
def KUQ_DECRYPT : Nat := 0x40

/-- Modelled from the spec glossary: the backtrack bit is bit 0x80 of a
PIN reference. -/
def BACKTRACK_PIN : Nat := 0x80

/-- Modelled from the spec §4.2.4: the mask clearing the backtrack bit. -/
def BACKTRACK_MASK : Nat := 0x7F

/-- Modelled from the spec §4.3: FCP tag values come from the missing
header; the outer FCP template tag. -/
def FCP_TAG_START : Nat := 0x62

/-- Modelled from the spec §4.3 and scenario S1 (descriptor `82 01 01`). -/
def FCP_TAG_DESCRIPTOR : Nat := 0x82

/-- Modelled from the spec §4.3: DF file-descriptor byte. -/
def FCP_TYPE_DF : Nat := 0x38

/-- Modelled from the spec scenario S1: transparent-EF descriptor 0x01. -/
def FCP_TYPE_BINARY_EF : Nat := 0x01

/-- Modelled from the spec scenario S1 (size tag `81 02 hh ll`). -/
def FCP_TAG_DF_SIZE : Nat := 0x81

/-- Modelled from the spec scenario S1. -/
def FCP_TAG_EF_SIZE : Nat := 0x81

/-- Modelled from the spec §4.3.1. -/
def FCP_TAG_DF_NAME : Nat := 0x84

/-- Modelled from the spec scenario S1 (`88 00`, empty SFID). -/
def FCP_TAG_EF_SFID : Nat := 0x88

/-- Modelled from the spec §4.3.3: big-endian 2-byte file identifier. -/
def FCP_TAG_FILEID : Nat := 0x83

/-- Modelled from the spec §4.3.4: the security-attribute tag located in
returned FCP bytes; the source uses the literal 0xAB in
cardos5_process_fci. -/
def FCP_TAG_ARL : Nat := 0xAB

/-- Modelled from the spec §6: APDU instruction and parameter bytes come
from the missing header; claims depend only on the named roles and on
distinctness, so representative distinct byte values are used.  SELECT
instruction. -/
def CARDOS5_SELECT_INS : Nat := 0xA4

/-- Modelled from the spec §6: SELECT by file identifier. -/
def CARDOS5_SELECT_P1_FILE_ID : Nat := 0x00

/-- Modelled from the spec §6: SELECT by path relative to the MF. -/
def CARDOS5_SELECT_P1_FULL_PATH : Nat := 0x08

/-- Modelled from the spec §6: request FCI in the SELECT response. -/
def CARDOS5_SELECT_P2_FCI : Nat := 0x00

/-- Modelled from the spec §6: request no SELECT response data. -/
def CARDOS5_SELECT_P2_NO_RESPONSE : Nat := 0x0C

/-- Modelled from the spec §6: CREATE FILE instruction. -/
def CARDOS5_CREATE_FILE_INS : Nat := 0xE0

/-- Modelled from the spec §6: PUT DATA instruction. -/
def CARDOS5_PUT_DATA_INS : Nat := 0xDA

/-- Modelled from the spec §6: PUT DATA, ECD variant, parameter 1. -/
def CARDOS5_PUT_DATA_ECD_P1 : Nat := 0x01

/-- Modelled from the spec §6: PUT DATA, ECD variant, parameter 2. -/
def CARDOS5_PUT_DATA_ECD_P2 : Nat := 0x6E

/-- Modelled from the spec §6: PHASE CONTROL class byte. -/
def CARDOS5_PHASE_CONTROL_CLA : Nat := 0x80

/-- Modelled from the spec §6: PHASE CONTROL instruction. -/
def CARDOS5_PHASE_CONTROL_INS : Nat := 0x10

/-- Modelled from the spec §6: PHASE CONTROL toggle parameter 1. -/
def CARDOS5_PHASE_CONTROL_P1_TOGGLE : Nat := 0x00

/-- Modelled from the spec §6: PHASE CONTROL toggle parameter 2. -/
def CARDOS5_PHASE_CONTROL_P2_TOGGLE : Nat := 0x00

/-- Modelled from the spec §6: ACCUMULATE OBJECT DATA class byte. -/
def CARDOS5_ACCUMULATE_OBJECT_DATA_CLA : Nat := 0x84

/-- Modelled from the spec §6: ACCUMULATE OBJECT DATA instruction. -/
def CARDOS5_ACCUMULATE_OBJECT_DATA_INS : Nat := 0x9A

/-- Modelled from the spec §6: ACCUMULATE OBJECT DATA, new object. -/
def CARDOS5_ACCUMULATE_OBJECT_DATA_P1_NEW : Nat := 0x01

/-- Modelled from the spec §6: ACCUMULATE OBJECT DATA, append. -/
def CARDOS5_ACCUMULATE_OBJECT_DATA_P1_APPEND : Nat := 0x02

/-- Modelled from the spec §6: MANAGE SECURITY ENVIRONMENT instruction. -/
def CARDOS5_MANAGE_SECURITY_ENVIRONMENT_INS : Nat := 0x22

/-- Modelled from the spec §6: MSE parameter 1, SET. -/
def CARDOS5_MANAGE_SECURITY_ENVIRONMENT_P1_SET : Nat := 0x41

/-- Modelled from the spec §6: MSE parameter 2, Sign. -/
def CARDOS5_MANAGE_SECURITY_ENVIRONMENT_P2_SIGN : Nat := 0xB6

/-- Modelled from the spec §6: MSE parameter 2, Decipher. -/
def CARDOS5_MANAGE_SECURITY_ENVIRONMENT_P2_DECIPHER : Nat := 0xB8

/-- Modelled from the spec §6: PERFORM SECURITY OPERATION instruction. -/
def CARDOS5_PERFORM_SECURITY_OPERATION_INS : Nat := 0x2A

/-- Modelled from the spec §6: PSO parameter 1, Sign. -/
def CARDOS5_PERFORM_SECURITY_OPERATION_P1_SIGN : Nat := 0x9E

/-- Modelled from the spec §6: PSO parameter 2, Sign. -/
def CARDOS5_PERFORM_SECURITY_OPERATION_P2_SIGN : Nat := 0x9A

/-- Modelled from the spec §3: abstract ACL operation codes live in the
host stack's opensc.h, not among the sources; distinct naturals are
used.  Delete. -/
def SC_AC_OP_DELETE : Nat := 2

/-- Modelled from the spec §3: Create. -/
def SC_AC_OP_CREATE : Nat := 3

/-- Modelled from the spec §3: Rehabilitate (activate). -/
def SC_AC_OP_REHABILITATE : Nat := 4

/-- Modelled from the spec §3: Invalidate (deactivate). -/
def SC_AC_OP_INVALIDATE : Nat := 5

/-- Modelled from the spec §3: Read. -/
def SC_AC_OP_READ : Nat := 8

/-- Modelled from the spec §3: Update. -/
def SC_AC_OP_UPDATE : Nat := 9

/-- Modelled from the spec §3: Write. -/
def SC_AC_OP_WRITE : Nat := 10

/-- Modelled from the spec: SC_AC_KEY_REF_NONE is `(unsigned long)-1`
in the host stack, i.e. 2^64 - 1. -/
def SC_AC_KEY_REF_NONE : Nat := 18446744073709551615

/-- The value `-1U` of a C `unsigned int`, used by the source as the
"no mapped operation" and "unset algorithm" sentinel. -/
def UINT_MAX : Nat := 4294967295

/-- The C constant UINT8_MAX. -/
def UINT8_MAX : Nat := 255

/-- The C constant UINT16_MAX. -/
def UINT16_MAX : Nat := 65535

/-- The C constant INT8_MAX. -/
def INT8_MAX : Nat := 127

/-- The C constant INT_MAX. -/
def INT_MAX : Nat := 2147483647

/-- Modelled from the spec §3: file-kind codes from the host stack's
headers; working EF. -/
def SC_FILE_TYPE_WORKING_EF : Nat := 0x01

/-- Modelled from the spec §3: dedicated file (directory). -/
def SC_FILE_TYPE_DF : Nat := 0x04

/-- Modelled from the spec §4.3.2: transparent EF substructure code. -/
def SC_FILE_EF_TRANSPARENT : Nat := 0x01

/-- Modelled from the spec §3: card-type code for CardOS v5.0. -/
def SC_CARD_TYPE_CARDOS_V5_0 : Nat := 14005

/-- Modelled from the spec §3: card-type code for CardOS v5.3. -/
def SC_CARD_TYPE_CARDOS_V5_3 : Nat := 14006

/-- Modelled from the spec §4.5: RSA algorithm family code. -/
def SC_ALGORITHM_RSA : Nat := 0

/-- Modelled from the spec §4.5: EC algorithm family code. -/
def SC_ALGORITHM_EC : Nat := 2

/-- Modelled from the spec §4.5: security operation code, Decipher. -/
def SC_SEC_OPERATION_DECIPHER : Nat := 1

/-- Modelled from the spec §4.5: security operation code, Sign. -/
def SC_SEC_OPERATION_SIGN : Nat := 2

/-- Modelled from the spec §4.5: path-type code for absolute paths. -/
def SC_PATH_TYPE_PATH : Nat := 2

/-- Subtraction of `size_t` values as the C source performs it: the
operands are reduced modulo 2^64 and the difference wraps around. -/
def sub64 (a b : Nat) : Nat :=
  (a % 18446744073709551616 + 18446744073709551616 - b % 18446744073709551616) %
    18446744073709551616

/-- Abstract access methods of the host ACL model (`SC_AC_*` of the host
stack).  `acOther` stands for any further method code the driver does
not handle. -/
inductive AcMethod where
  | acNone
  | acNever
  | acChv
  | acTerm
  | acAut
  | acOther (code : Nat)
deriving DecidableEq, Repr

/-- The driver's cursor buffer `buf_t`: a capacity and the bytes written
so far (`bytes_used` is the length of `data`). -/
structure Buf where
  size : Nat
  data : List Nat
deriving DecidableEq, Repr

/-- An ACL entry of the host file model: method plus key reference. -/
structure AclEntry where
  method : AcMethod
  key_ref : Nat
deriving DecidableEq, Repr

/-- The slice of `struct sc_file` the driver reads: kind, size,
identifier, DF name, EF substructure, and the ACL table keyed by
abstract operation. -/
structure ScFile where
  ftype : Nat
  size : Nat
  id : Int
  name : List Nat
  ef_structure : Nat
  acl : List (Nat × AclEntry)
deriving DecidableEq, Repr

/-- The host helper sc_file_get_acl_entry: first ACL entry stored for
the given operation, if any. -/
def sc_file_get_acl_entry (f : ScFile) (op : Nat) : Option AclEntry :=
  (f.acl.find? (fun p => p.1 == op)).map (fun p => p.2)

/-- Modelled from the spec §4.1: the wrapper asn1_put_tag delegates to
sc_asn1_put_tag of libopensc/asn1.c, which is not among the sources;
per the spec it emits `tag ‖ len ‖ content` with a one-byte length
(content length below 256) into the remaining capacity, and the wrapper
advances `bytes_used` by `content length + 2`. -/
def asn1_put_tag (tag : Nat) (content : List Nat) (buf : Buf) : Option Buf :=
  if content.length ≤ 255 ∧ buf.data.length + 2 + content.length ≤ buf.size then
    some ⟨buf.size, buf.data ++ tag % 256 :: content.length :: content⟩
  else
    none

/-- asn1_put_tag0 of the source: empty content. -/
def asn1_put_tag0 (tag : Nat) (buf : Buf) : Option Buf :=
  asn1_put_tag tag [] buf

/-- asn1_put_tag1 of the source: one content byte (a C `uint8_t`, hence
the reduction modulo 256). -/
def asn1_put_tag1 (tag : Nat) (tag_value : Nat) (buf : Buf) : Option Buf :=
  asn1_put_tag tag [tag_value % 256] buf

/-- The length-octet portion of bertlv_put_tag: short form below 0x80,
`81 ll` below 0xFF, `82 hh ll` otherwise, each form guarded by its own
remaining-capacity check as written in the source. -/
def bertlvLenStep (length : Nat) (buf1 : Buf) : Option Buf :=
  if length < 0x80 then
    if buf1.data.length = buf1.size then
      none
    else
      some ⟨buf1.size, buf1.data ++ [length]⟩
  else if length < 0xFF then
    if sub64 buf1.size buf1.data.length < 2 then
      none
    else
      some ⟨buf1.size, buf1.data ++ [0x81, length % 256]⟩
  else
    if sub64 buf1.size buf1.data.length < 3 then
      none
    else
      some ⟨buf1.size, buf1.data ++ [0x82, length / 256 % 256, length % 256]⟩

/-- bertlv_put_tag of the source, byte for byte.  Note the final
capacity guard is `bytes_used - size < length` on `size_t` operands,
exactly as in the source (the spec flags this inverted check as a
latent bug): when `bytes_used < size` the subtraction wraps around and
the guard never fires, so the payload is written even past the
capacity. -/
def bertlv_put_tag (tag : Nat) (data : List Nat) (buf : Buf) : Option Buf :=
  if data.length > UINT16_MAX ∨ buf.data.length = buf.size then
    none
  else
    (bertlvLenStep data.length ⟨buf.size, buf.data ++ [tag % 256]⟩).bind
      (fun buf2 =>
        if sub64 buf2.data.length buf2.size < data.length then
          none
        else
          some ⟨buf2.size, buf2.data ++ data⟩)

/-- The inner CRT add_acl_tag builds for user-authentication methods
(lines 158-161 of the source): pin reference and key-usage qualifier in
a 16-byte scratch buffer; a failing step aborts, rendered with
`Option.bind`. -/
def buildAuthCrt (key_ref : Nat) : Option Buf :=
  (asn1_put_tag1 CRT_TAG_PINREF key_ref ⟨16, []⟩).bind
    (fun crt1 => asn1_put_tag1 CRT_TAG_KUQ KUQ_USER_AUTH crt1)

/-- The user-authentication predicate branch of add_acl_tag (the
CHV/Term/Aut case labels fall through to the same code in the source):
validate the key reference, then wrap the CRT under the UserAuth tag. -/
def authPredStep (key_ref : Nat) (b : Buf) : Option Buf :=
  if key_ref &&& BACKTRACK_PIN ≠ 0 ∨ key_ref > UINT8_MAX then
    none
  else
    (buildAuthCrt key_ref).bind
      (fun crt2 => asn1_put_tag ARL_USER_AUTH_TAG crt2.data b)

/-- add_acl_tag of the source: optional AM-byte scope followed by the
predicate selected by the access method. -/
def add_acl_tag (am_byte : Nat) (ac : AcMethod) (key_ref : Nat) (buf : Buf) :
    Option Buf :=
  (if am_byte ≠ 0xff then asn1_put_tag1 ARL_ACCESS_MODE_BYTE_TAG am_byte buf
    else some buf).bind
    (fun b =>
      match ac with
      | .acNone => asn1_put_tag0 ARL_ALWAYS_TAG b
      | .acNever => asn1_put_tag0 ARL_NEVER_TAG b
      | .acChv => authPredStep key_ref b
      | .acTerm => authPredStep key_ref b
      | .acAut => authPredStep key_ref b
      | .acOther _ => none)

/-- Modelled from the spec §3: AM-byte values for EFs come from the
missing header card-cardos5.h; the table shape (9 entries, their order,
and which rows map to an abstract operation) is the source's `ef_acl`,
while the concrete byte values are representative, pairwise distinct
and different from 0xFF, as the encoder's 0xFF sentinel requires. -/
def efAclTable : List (Nat × Option Nat) :=
  [ (0x40, some SC_AC_OP_DELETE),
    (0x20, none),
    (0x10, some SC_AC_OP_REHABILITATE),
    (0x08, some SC_AC_OP_INVALIDATE),
    (0x04, some SC_AC_OP_WRITE),
    (0x02, some SC_AC_OP_UPDATE),
    (0x01, some SC_AC_OP_READ),
    (0x32, none),
    (0x31, none) ]

/-- Modelled from the spec §3: AM-byte values for DFs, shaped after the
source's `df_acl` (11 entries; terminate, delete-child and
load-executable have no abstract mapping); concrete byte values are
representative, pairwise distinct and different from 0xFF. -/
def dfAclTable : List (Nat × Option Nat) :=
  [ (0x40, some SC_AC_OP_DELETE),
    (0x20, none),
    (0x10, some SC_AC_OP_REHABILITATE),
    (0x08, some SC_AC_OP_INVALIDATE),
    (0x04, some SC_AC_OP_CREATE),
    (0x02, some SC_AC_OP_CREATE),
    (0x05, none),
    (0x24, some SC_AC_OP_CREATE),
    (0x22, some SC_AC_OP_UPDATE),
    (0x21, none),
    (0x12, some SC_AC_OP_CREATE) ]

/-- The access method and key reference the FCP builders feed to
add_acl_tag for one AM-table row of a DF: the host entry for the mapped
operation when there is one, otherwise Never with the `-1U` key
reference (construct_df_fcp, loop body). -/
def dfRowAc (f : ScFile) (row : Nat × Option Nat) : AcMethod × Nat :=
  match row.2 with
  | some op =>
    match sc_file_get_acl_entry f op with
    | some e => (e.method, e.key_ref)
    | none => (.acNever, UINT_MAX)
  | none => (.acNever, UINT_MAX)

/-- Same as `dfRowAc` for EFs; construct_ef_fcp additionally casts the
key reference to `uint8_t`. -/
def efRowAc (f : ScFile) (row : Nat × Option Nat) : AcMethod × Nat :=
  match row.2 with
  | some op =>
    match sc_file_get_acl_entry f op with
    | some e => (e.method, e.key_ref % 256)
    | none => (.acNever, UINT_MAX)
  | none => (.acNever, UINT_MAX)

/-- The per-AM-table loop shared by construct_df_fcp and
construct_ef_fcp: one add_acl_tag call per table row, aborting on the
first failure. -/
def arlAddRows (rowAc : Nat × Option Nat → AcMethod × Nat) :
    List (Nat × Option Nat) → Buf → Option Buf
  | [], b => some b
  | row :: rows, b =>
    match add_acl_tag row.1 (rowAc row).1 (rowAc row).2 b with
    | none => none
    | some b2 => arlAddRows rowAc rows b2

/-- The ARL portion of construct_df_fcp (lines 621-689 of the source):
the optional command-scoped entry derived from the host's Update entry,
the AM-table loop, and the three trailing command-scoped Always entries
(PHASE CONTROL toggle, ACCUMULATE OBJECT DATA new, ACCUMULATE OBJECT
DATA append), built in a 128-byte buffer. -/
def dfArlBuild (f : ScFile) : Option Buf :=
  (match sc_file_get_acl_entry f SC_AC_OP_UPDATE with
    | some e =>
      (asn1_put_tag ARL_COMMAND_TAG
          [0x00, CARDOS5_PUT_DATA_INS, CARDOS5_PUT_DATA_ECD_P1,
            CARDOS5_PUT_DATA_ECD_P2] ⟨128, []⟩).bind
        (fun b1 => add_acl_tag 0xff e.method e.key_ref b1)
    | none => some ⟨128, []⟩).bind
    (fun b1 => (arlAddRows (dfRowAc f) dfAclTable b1).bind
    (fun b2 => (asn1_put_tag ARL_COMMAND_TAG
        [CARDOS5_PHASE_CONTROL_CLA, CARDOS5_PHASE_CONTROL_INS,
          CARDOS5_PHASE_CONTROL_P1_TOGGLE, CARDOS5_PHASE_CONTROL_P2_TOGGLE]
        b2).bind
    (fun b3 => (asn1_put_tag0 ARL_ALWAYS_TAG b3).bind
    (fun b4 => (asn1_put_tag ARL_COMMAND_TAG
        [CARDOS5_ACCUMULATE_OBJECT_DATA_CLA,
          CARDOS5_ACCUMULATE_OBJECT_DATA_INS,
          CARDOS5_ACCUMULATE_OBJECT_DATA_P1_NEW, 0x00] b4).bind
    (fun b5 => (asn1_put_tag0 ARL_ALWAYS_TAG b5).bind
    (fun b6 => (asn1_put_tag ARL_COMMAND_TAG
        [CARDOS5_ACCUMULATE_OBJECT_DATA_CLA,
          CARDOS5_ACCUMULATE_OBJECT_DATA_INS,
          CARDOS5_ACCUMULATE_OBJECT_DATA_P1_APPEND, 0x00] b6).bind
    (fun b7 => asn1_put_tag0 ARL_ALWAYS_TAG b7)))))))

/-- The ARL portion of construct_ef_fcp (lines 727-747 of the source):
the AM-table loop over `ef_acl`, built in a 96-byte buffer. -/
def efArlBuild (f : ScFile) : Option Buf :=
  arlAddRows (efRowAc f) efAclTable ⟨96, []⟩

/-- construct_df_fcp of the source: descriptor, big-endian size,
optional DF name, then the ARL of `dfArlBuild` wrapped under
FCP_TAG_ARL; every builder failure becomes BUFFER_TOO_SMALL, an
oversized file size INVALID_ARGUMENTS. -/
def construct_df_fcp (f : ScFile) (fcp : Buf) : Except Int Buf :=
  if f.size > UINT16_MAX then
    .error SC_ERROR_INVALID_ARGUMENTS
  else
    match asn1_put_tag1 FCP_TAG_DESCRIPTOR FCP_TYPE_DF fcp with
    | none => .error SC_ERROR_BUFFER_TOO_SMALL
    | some fcp1 =>
      match asn1_put_tag FCP_TAG_DF_SIZE [f.size / 256 % 256, f.size % 256]
          fcp1 with
      | none => .error SC_ERROR_BUFFER_TOO_SMALL
      | some fcp2 =>
        let named : Option Buf :=
          if f.name.length ≠ 0 then asn1_put_tag FCP_TAG_DF_NAME f.name fcp2
          else some fcp2
        match named with
        | none => .error SC_ERROR_BUFFER_TOO_SMALL
        | some fcp3 =>
          match dfArlBuild f with
          | none => .error SC_ERROR_BUFFER_TOO_SMALL
          | some arl =>
            match asn1_put_tag FCP_TAG_ARL arl.data fcp3 with
            | none => .error SC_ERROR_BUFFER_TOO_SMALL
            | some fcp4 => .ok fcp4

/-- construct_ef_fcp of the source: transparent EFs only; descriptor,
big-endian size, empty SFID, then the ARL of `efArlBuild` wrapped under
FCP_TAG_ARL. -/
def construct_ef_fcp (f : ScFile) (fcp : Buf) : Except Int Buf :=
  if f.ef_structure ≠ SC_FILE_EF_TRANSPARENT then
    .error SC_ERROR_NOT_SUPPORTED
  else if f.size > UINT16_MAX then
    .error SC_ERROR_INVALID_ARGUMENTS
  else
    match asn1_put_tag1 FCP_TAG_DESCRIPTOR FCP_TYPE_BINARY_EF fcp with
    | none => .error SC_ERROR_BUFFER_TOO_SMALL
    | some fcp1 =>
      match asn1_put_tag FCP_TAG_EF_SIZE [f.size / 256 % 256, f.size % 256]
          fcp1 with
      | none => .error SC_ERROR_BUFFER_TOO_SMALL
      | some fcp2 =>
        match asn1_put_tag0 FCP_TAG_EF_SFID fcp2 with
        | none => .error SC_ERROR_BUFFER_TOO_SMALL
        | some fcp3 =>
          match efArlBuild f with
          | none => .error SC_ERROR_BUFFER_TOO_SMALL
          | some arl =>
            match asn1_put_tag FCP_TAG_ARL arl.data fcp3 with
            | none => .error SC_ERROR_BUFFER_TOO_SMALL
            | some fcp4 => .ok fcp4

/-- construct_fcp of the source: dispatch on the file kind, append the
big-endian file identifier, and wrap the body under FCP_TAG_START into
the caller's buffer. -/
def construct_fcp (f : ScFile) (buf : Buf) : Except Int Buf :=
  let fcp0 : Buf := ⟨128, []⟩
  let body : Except Int Buf :=
    if f.ftype = SC_FILE_TYPE_DF then construct_df_fcp f fcp0
    else if f.ftype = SC_FILE_TYPE_WORKING_EF then construct_ef_fcp f fcp0
    else .error SC_ERROR_NOT_SUPPORTED
  match body with
  | .error e => .error e
  | .ok fcp =>
    if f.id < 0 ∨ f.id > (UINT16_MAX : Int) then
      .error SC_ERROR_INVALID_ARGUMENTS
    else
      match asn1_put_tag FCP_TAG_FILEID
          [(f.id.toNat / 256) % 256, f.id.toNat % 256] fcp with
      | none => .error SC_ERROR_BUFFER_TOO_SMALL
      | some fcp2 =>
        match asn1_put_tag FCP_TAG_START fcp2.data buf with
        | none => .error SC_ERROR_BUFFER_TOO_SMALL
        | some out => .ok out

/-- An ACL entry as the ARL decoders hand it to sc_file_add_acl_entry:
operation, method, key reference. -/
def PEntry : Type := Nat × AcMethod × Nat

instance : DecidableEq PEntry := by
  unfold PEntry
  infer_instance

/-- The loop of parse_df_arl (lines 311-381 of the source), returning
the entries added to the file in order.  Command-scoped entries are
skipped (8 bytes, plus the indicated length when a UserAuth predicate
follows); AM-scoped entries are checked against the DF AM table and
their predicate decoded as Always, Never or UserAuth. -/
def parseDfArlLoop : List Nat → Except Int (List PEntry)
  | [] => .ok []
  | a0 :: a1 :: a2 :: a3 :: a4 :: rest =>
    if a0 = ARL_COMMAND_TAG then
      if 5 + rest.length < 8 then .error SC_ERROR_WRONG_LENGTH
      else if rest.getD 1 0 = ARL_USER_AUTH_TAG then
        if 5 + rest.length < rest.getD 2 0 + 8 then .error SC_ERROR_WRONG_LENGTH
        else parseDfArlLoop
          (List.drop (rest.getD 2 0 + 8) (a0 :: a1 :: a2 :: a3 :: a4 :: rest))
      else parseDfArlLoop (rest.drop 3)
    else if a0 ≠ ARL_ACCESS_MODE_BYTE_TAG ∨ a1 ≠ ARL_ACCESS_MODE_BYTE_LEN then
      .error SC_ERROR_NO_CARD_SUPPORT
    else
      match dfAclTable.find? (fun p => p.1 == a2) with
      | none => .error SC_ERROR_NO_CARD_SUPPORT
      | some row =>
        if a3 = ARL_ALWAYS_TAG then
          if a4 ≠ ARL_ALWAYS_LEN then .error SC_ERROR_NO_CARD_SUPPORT
          else
            match parseDfArlLoop rest with
            | .error e => .error e
            | .ok es =>
              match row.2 with
              | some op => .ok ((op, .acNone, SC_AC_KEY_REF_NONE) :: es)
              | none => .ok es
        else if a3 = ARL_NEVER_TAG then
          if a4 ≠ ARL_NEVER_LEN then .error SC_ERROR_NO_CARD_SUPPORT
          else
            match parseDfArlLoop rest with
            | .error e => .error e
            | .ok es =>
              match row.2 with
              | some op => .ok ((op, .acNever, SC_AC_KEY_REF_NONE) :: es)
              | none => .ok es
        else if a3 = ARL_USER_AUTH_TAG then
          if 5 + rest.length < 11 then .error SC_ERROR_WRONG_LENGTH
          else if a4 ≠ ARL_USER_AUTH_LEN ∨ rest.getD 0 0 ≠ CRT_TAG_PINREF ∨
              rest.getD 1 0 ≠ CRT_LEN_PINREF then
            .error SC_ERROR_NO_CARD_SUPPORT
          else if rest.getD 3 0 ≠ CRT_TAG_KUQ ∨ rest.getD 4 0 ≠ CRT_LEN_KUQ ∨
              rest.getD 5 0 ≠ KUQ_USER_AUTH then
            .error SC_ERROR_NO_CARD_SUPPORT
          else
            match parseDfArlLoop (rest.drop 6) with
            | .error e => .error e
            | .ok es =>
              match row.2 with
              | some op =>
                .ok ((op, .acChv, rest.getD 2 0 &&& BACKTRACK_MASK) :: es)
              | none => .ok es
        else .error SC_ERROR_NO_CARD_SUPPORT
  | _ => .error SC_ERROR_WRONG_LENGTH
termination_by l => l.length
decreasing_by
  all_goals simp_all [List.length_drop]
  all_goals omega

/-- The entries the MF special case of parse_df_arl adds: every mapped
DF operation with method None and no key reference. -/
def dfAllNone : List PEntry :=
  dfAclTable.filterMap
    (fun row => row.2.map (fun op => (op, AcMethod.acNone, SC_AC_KEY_REF_NONE)))

/-- parse_df_arl of the source: the 9-byte "allow everything" MF form
is recognised first (only bytes 5 through 8 are inspected), anything
else goes through the entry loop. -/
def parse_df_arl (arl : List Nat) : Except Int (List PEntry) :=
  if arl.length = 9 ∧ arl.getD 5 0 = ARL_DUMMY_TAG ∧
      arl.getD 6 0 = ARL_DUMMY_LEN ∧ arl.getD 7 0 = ARL_ALWAYS_TAG ∧
      arl.getD 8 0 = ARL_ALWAYS_LEN then
    .ok dfAllNone
  else
    parseDfArlLoop arl

/-- The loop of parse_ef_arl (lines 397-451 of the source): like the DF
loop but over the EF AM table and without the command-scope skip. -/
def parseEfArlLoop : List Nat → Except Int (List PEntry)
  | [] => .ok []
  | a0 :: a1 :: a2 :: a3 :: a4 :: rest =>
    if a0 ≠ ARL_ACCESS_MODE_BYTE_TAG ∨ a1 ≠ ARL_ACCESS_MODE_BYTE_LEN then
      .error SC_ERROR_NO_CARD_SUPPORT
    else
      match efAclTable.find? (fun p => p.1 == a2) with
      | none => .error SC_ERROR_NO_CARD_SUPPORT
      | some row =>
        if a3 = ARL_ALWAYS_TAG then
          if a4 ≠ ARL_ALWAYS_LEN then .error SC_ERROR_NO_CARD_SUPPORT
          else
            match parseEfArlLoop rest with
            | .error e => .error e
            | .ok es =>
              match row.2 with
              | some op => .ok ((op, .acNone, SC_AC_KEY_REF_NONE) :: es)
              | none => .ok es
        else if a3 = ARL_NEVER_TAG then
          if a4 ≠ ARL_NEVER_LEN then .error SC_ERROR_NO_CARD_SUPPORT
          else
            match parseEfArlLoop rest with
            | .error e => .error e
            | .ok es =>
              match row.2 with
              | some op => .ok ((op, .acNever, SC_AC_KEY_REF_NONE) :: es)
              | none => .ok es
        else if a3 = ARL_USER_AUTH_TAG then
          if 5 + rest.length < 11 then .error SC_ERROR_WRONG_LENGTH
          else if a4 ≠ ARL_USER_AUTH_LEN ∨ rest.getD 0 0 ≠ CRT_TAG_PINREF ∨
              rest.getD 1 0 ≠ CRT_LEN_PINREF then
            .error SC_ERROR_NO_CARD_SUPPORT
          else if rest.getD 3 0 ≠ CRT_TAG_KUQ ∨ rest.getD 4 0 ≠ CRT_LEN_KUQ ∨
              rest.getD 5 0 ≠ KUQ_USER_AUTH then
            .error SC_ERROR_NO_CARD_SUPPORT
          else
            match parseEfArlLoop (rest.drop 6) with
            | .error e => .error e
            | .ok es =>
              match row.2 with
              | some op =>
                .ok ((op, .acChv, rest.getD 2 0 &&& BACKTRACK_MASK) :: es)
              | none => .ok es
        else .error SC_ERROR_NO_CARD_SUPPORT
  | _ => .error SC_ERROR_WRONG_LENGTH
termination_by l => l.length
decreasing_by
  all_goals simp_all [List.length_drop]
  all_goals omega

/-- parse_ef_arl of the source. -/
def parse_ef_arl (arl : List Nat) : Except Int (List PEntry) :=
  parseEfArlLoop arl

/-- parse_arl of the source: dispatch on the file kind. -/
def parse_arl (ftype : Nat) (arl : List Nat) : Except Int (List PEntry) :=
  if ftype = SC_FILE_TYPE_DF then parse_df_arl arl
  else if ftype = SC_FILE_TYPE_WORKING_EF then parse_ef_arl arl
  else .error SC_ERROR_INVALID_ARGUMENTS

/-- The cursor over the raw signature bytes (`buf_t` again, but read
instead of written): the full byte string and the number of bytes
consumed so far; `size` is the byte string's length. -/
structure SigCursor where
  all : List Nat
  used : Nat
deriving DecidableEq, Repr

/-- extract_coordinate of the source: check that `raw_len` bytes remain
(with the `size_t` subtraction of the source) and that the raw length
is below INT8_MAX; emit `02 (raw_len+1) 00 ‖ coord` when the first
coordinate byte has the high bit set, `02 raw_len ‖ coord` otherwise;
advance past the coordinate, and on a v5.0 card past a further 2-byte
trailer.  Returns the encoded INTEGER and the advanced cursor. -/
def extract_coordinate (cardType : Nat) (raw_len : Nat) (sig : SigCursor) :
    Except Int (List Nat × SigCursor) :=
  if sub64 sig.all.length sig.used < raw_len ∨ raw_len ≥ INT8_MAX then
    .error SC_ERROR_BUFFER_TOO_SMALL
  else
    let coord := (sig.all.drop sig.used).take raw_len
    let encoded :=
      if (sig.all.drop sig.used).getD 0 0 &&& 0x80 ≠ 0 then
        0x02 :: (raw_len + 1) % 256 :: 0x00 :: coord
      else
        0x02 :: raw_len % 256 :: coord
    let sig2 : SigCursor := ⟨sig.all, sig.used + raw_len⟩
    if cardType = SC_CARD_TYPE_CARDOS_V5_0 then
      if sub64 sig2.all.length sig2.used < 2 then
        .error SC_ERROR_BUFFER_TOO_SMALL
      else
        .ok (encoded, ⟨sig2.all, sig2.used + 2⟩)
    else
      .ok (encoded, sig2)

/-- Lift the failure of a buffer writer to the error code its caller
reports (the C idiom `if (writer(...)) return ERR`). -/
def okOr {α : Type} (e : Int) (x : Option α) : Except Int α :=
  match x with
  | none => .error e
  | some a => .ok a

/-- get_point of the source: concatenate the two encoded INTEGERs and
wrap them under tag 0x30 with bertlv_put_tag into the output buffer;
the `size_t` overflow check on the concatenated length is kept. -/
def get_point (X Y : List Nat) (encoded_sig : Buf) : Except Int Buf :=
  let point_len := (X.length + Y.length) % 18446744073709551616
  if point_len < X.length ∨ point_len > UINT16_MAX then
    .error SC_ERROR_INVALID_ARGUMENTS
  else
    okOr SC_ERROR_BUFFER_TOO_SMALL (bertlv_put_tag 0x30 (X ++ Y) encoded_sig)

/-- encode_ec_sig of the source: validate the raw signature length,
derive the per-card coordinate length, extract the two coordinates and
wrap them as a SEQUENCE into the caller's `sigbufsiz`-byte signature
buffer.  The result is the written DER byte string; its length is the
C function's non-negative return value. -/
def encode_ec_sig (cardType : Nat) (sig : List Nat) (sigbufsiz : Nat) :
    Except Int (List Nat) :=
  if sig.length < 4 ∨ sig.length > sigbufsiz ∨ sig.length % 2 ≠ 0 then
    .error SC_ERROR_INVALID_ARGUMENTS
  else
    (if cardType = SC_CARD_TYPE_CARDOS_V5_0 then
        Except.ok ((sig.length - 4) / 2)
      else if cardType = SC_CARD_TYPE_CARDOS_V5_3 then
        Except.ok (sig.length / 2)
      else .error SC_ERROR_INVALID_ARGUMENTS).bind
    (fun coordinate_raw_len =>
      (extract_coordinate cardType coordinate_raw_len ⟨sig, 0⟩).bind
      (fun Xc =>
        (extract_coordinate cardType coordinate_raw_len Xc.2).bind
        (fun Yc =>
          (get_point Xc.1 Yc.1 ⟨sigbufsiz, []⟩).map (fun out => out.data))))

/-- The APDU fields cardos5_select_file assembles before transmitting. -/
structure SelectApdu where
  ins : Nat
  p1 : Nat
  p2 : Nat
  lc : Nat
  data : List Nat
  wantResp : Bool
deriving DecidableEq, Repr

/-- The path argument of cardos5_select_file: path type plus value
bytes (`len` is the value's length). -/
structure ScPath where
  ptype : Nat
  value : List Nat
deriving DecidableEq, Repr

/-- The argument validation and APDU construction of cardos5_select_file
(lines 501-541 of the source); the transmit, status-word check and
FCI parsing that follow involve the card's response and are outside the
decision logic the claims address. -/
def cardos5_select_file (path : ScPath) (wantFileOut : Bool) :
    Except Int SelectApdu :=
  if path.ptype ≠ SC_PATH_TYPE_PATH ∨ path.value.length < 2 ∨
      path.value.getD 0 0 ≠ 0x3F ∨ path.value.getD 1 0 ≠ 0x00 then
    .error SC_ERROR_INVALID_ARGUMENTS
  else
    let base : SelectApdu :=
      if path.value.length = 2 then
        ⟨CARDOS5_SELECT_INS, CARDOS5_SELECT_P1_FILE_ID,
          0, path.value.length, path.value, false⟩
      else
        ⟨CARDOS5_SELECT_INS, CARDOS5_SELECT_P1_FULL_PATH,
          0, path.value.length - 2, path.value.drop 2, false⟩
    if wantFileOut then
      .ok { base with p2 := CARDOS5_SELECT_P2_FCI, wantResp := true }
    else
      .ok { base with p2 := CARDOS5_SELECT_P2_NO_RESPONSE, wantResp := false }

/-- cardos5_pin_cmd of the source: refuse a reference that already has
the backtrack bit, otherwise set the bit and delegate; the returned
value is the reference handed to the generic ISO-7816 pin_cmd. -/
def cardos5_pin_cmd (pin_reference : Nat) : Except Int Nat :=
  if pin_reference &&& BACKTRACK_PIN ≠ 0 then
    .error SC_ERROR_INCORRECT_PARAMETERS
  else
    .ok (pin_reference ||| BACKTRACK_PIN)

/-- cardos5_set_security_env of the source as a state transformer on
the stored algorithm slot.  `txOk` stands for the outcome of
sc_transmit_apdu and `swOk` for sc_check_sw; their concrete failure
codes are surfaced unchanged, so a failing call is abstracted by
`false` with a representative code.  Returns the new slot value and the
call's result. -/
def cardos5_set_security_env (operation : Nat) (algorithm : Nat)
    (txOk swOk : Bool) : Nat × Except Int Unit :=
  let cse := UINT_MAX
  if operation ≠ SC_SEC_OPERATION_DECIPHER ∧ operation ≠ SC_SEC_OPERATION_SIGN
      then
    (cse, .error SC_ERROR_INVALID_ARGUMENTS)
  else if ¬txOk then
    (cse, .error SC_ERROR_CARD_CMD_FAILED)
  else if ¬swOk then
    (cse, .error SC_ERROR_CARD_CMD_FAILED)
  else
    (algorithm, .ok ())

/-- The CRT body cardos5_set_security_env sends: keyref and
key-usage-qualifier, built with the one-byte-content writer in a
16-byte buffer. -/
def setSecurityEnvData (key_ref0 : Nat) : Option Buf :=
  match asn1_put_tag1 CRT_TAG_KEYREF key_ref0 ⟨16, []⟩ with
  | none => none
  | some b1 => asn1_put_tag1 CRT_TAG_KUQ KUQ_DECRYPT b1

/-- cardos5_compute_signature of the source: the guards run in order
(driver state, then the output-buffer bound), the APDU is transmitted
only after both pass, and the response is returned raw for RSA or
re-encoded by encode_ec_sig for EC.  `transmitted` records whether
sc_transmit_apdu was reached.  `txOk`/`swOk` abstract the transport and
status-word outcomes and `resp` the card's raw response. -/
def cardos5_compute_signature (cardType : Nat) (cse_algorithm : Nat)
    (datalen outlen : Nat) (txOk swOk : Bool) (resp : List Nat) :
    Except Int Int × Bool :=
  if cse_algorithm = UINT_MAX then
    (.error SC_ERROR_INVALID_ARGUMENTS, false)
  else if outlen < datalen then
    (.error SC_ERROR_BUFFER_TOO_SMALL, false)
  else if ¬txOk then
    (.error SC_ERROR_CARD_CMD_FAILED, true)
  else if ¬swOk then
    (.error SC_ERROR_CARD_CMD_FAILED, true)
  else if resp.length > INT_MAX then
    (.error SC_ERROR_WRONG_LENGTH, true)
  else if cse_algorithm = SC_ALGORITHM_RSA then
    ((.ok (resp.length : Int)), true)
  else if cse_algorithm = SC_ALGORITHM_EC then
    (match encode_ec_sig cardType resp outlen with
      | .error e => .error e
      | .ok out => .ok (out.length : Int), true)
  else
    (.error SC_ERROR_INVALID_ARGUMENTS, true)

deriving instance DecidableEq for Except

unseal parseDfArlLoop parseEfArlLoop

/-! ## Specification-level byte images of the encoders

The following definitions restate, as plain byte strings, what the
buffer-threaded encoders above write; the lemmas after them prove the
correspondence, conditional only on the encoders succeeding. -/

/-- The predicate bytes add_acl_tag emits for one access method. -/
def predChunk (ac : AcMethod) (k : Nat) : List Nat :=
  match ac with
  | .acNone => [ARL_ALWAYS_TAG, 0]
  | .acNever => [ARL_NEVER_TAG, 0]
  | .acChv | .acTerm | .acAut =>
    [ARL_USER_AUTH_TAG, 6, CRT_TAG_PINREF, 1, k % 256, CRT_TAG_KUQ, 1,
      KUQ_USER_AUTH]
  | .acOther _ => []

/-- The full entry bytes add_acl_tag emits: optional AM scope followed
by the predicate. -/
def aclChunk (am : Nat) (ac : AcMethod) (k : Nat) : List Nat :=
  (if am ≠ 0xff then [ARL_ACCESS_MODE_BYTE_TAG, 1, am % 256] else []) ++
    predChunk ac k

/-- Whether add_acl_tag accepts the method/key-reference pair: the five
known methods, with user-authentication methods requiring a byte-sized
reference without the backtrack bit. -/
def acEncodable (ac : AcMethod) (k : Nat) : Bool :=
  match ac with
  | .acNone => true
  | .acNever => true
  | .acChv | .acTerm | .acAut =>
    decide (k &&& BACKTRACK_PIN = 0 ∧ k ≤ UINT8_MAX)
  | .acOther _ => false

/-- One command-scoped Always entry as construct_df_fcp appends it:
`CMD_TAG 0x04 CLA INS P1 P2` followed by `ALWAYS_TAG 0x00`. -/
def cmdAlwaysChunk (cla ins p1 p2 : Nat) : List Nat :=
  [ARL_COMMAND_TAG, 4, cla, ins, p1, p2, ARL_ALWAYS_TAG, 0]

/-- The command-scoped entry construct_df_fcp emits first when the host
supplied an Update ACL entry: the PUT DATA (ECD) APDU header scope with
the predicate derived from that entry. -/
def dfUpdChunk (f : ScFile) : List Nat :=
  match sc_file_get_acl_entry f SC_AC_OP_UPDATE with
  | some e =>
    [ARL_COMMAND_TAG, 4, 0x00, CARDOS5_PUT_DATA_INS, CARDOS5_PUT_DATA_ECD_P1,
      CARDOS5_PUT_DATA_ECD_P2] ++ predChunk e.method e.key_ref
  | none => []

/-- The three trailing command-scoped Always entries of a DF ARL:
PHASE CONTROL toggle, ACCUMULATE OBJECT DATA (new), ACCUMULATE OBJECT
DATA (append). -/
def dfTailChunks : List Nat :=
  cmdAlwaysChunk CARDOS5_PHASE_CONTROL_CLA CARDOS5_PHASE_CONTROL_INS
      CARDOS5_PHASE_CONTROL_P1_TOGGLE CARDOS5_PHASE_CONTROL_P2_TOGGLE ++
    cmdAlwaysChunk CARDOS5_ACCUMULATE_OBJECT_DATA_CLA
      CARDOS5_ACCUMULATE_OBJECT_DATA_INS
      CARDOS5_ACCUMULATE_OBJECT_DATA_P1_NEW 0 ++
    cmdAlwaysChunk CARDOS5_ACCUMULATE_OBJECT_DATA_CLA
      CARDOS5_ACCUMULATE_OBJECT_DATA_INS
      CARDOS5_ACCUMULATE_OBJECT_DATA_P1_APPEND 0

/-- The AM-table portion of a DF ARL as a byte string. -/
def dfTableBytes (f : ScFile) : List Nat :=
  (dfAclTable.map
    (fun row => aclChunk row.1 (dfRowAc f row).1 (dfRowAc f row).2)).join

/-- The AM-table portion of an EF ARL as a byte string. -/
def efTableBytes (f : ScFile) : List Nat :=
  (efAclTable.map
    (fun row => aclChunk row.1 (efRowAc f row).1 (efRowAc f row).2)).join

/-! ## Encoder normalisation lemmas -/

theorem asn1_put_tag_some {t : Nat} {c : List Nat} {b b' : Buf}
    (h : asn1_put_tag t c b = some b') :
    b'.size = b.size ∧ b'.data = b.data ++ t % 256 :: c.length :: c := by
  unfold asn1_put_tag at h
  split at h
  · cases h
    exact ⟨rfl, rfl⟩
  · cases h

theorem buildAuthCrt_eq (k : Nat) :
    buildAuthCrt k =
      some ⟨16, [CRT_TAG_PINREF, CRT_LEN_PINREF, k % 256, CRT_TAG_KUQ,
        CRT_LEN_KUQ, KUQ_USER_AUTH]⟩ := rfl

theorem authPredStep_some {k : Nat} {b b' : Buf}
    (h : authPredStep k b = some b') :
    b'.size = b.size ∧
      b'.data = b.data ++ [ARL_USER_AUTH_TAG, 6, CRT_TAG_PINREF, 1, k % 256,
        CRT_TAG_KUQ, 1, KUQ_USER_AUTH] ∧
      k &&& BACKTRACK_PIN = 0 ∧ k ≤ UINT8_MAX := by
  unfold authPredStep at h
  split at h
  · simp at h
  · rename_i hk
    rw [buildAuthCrt_eq, Option.some_bind] at h
    rcases asn1_put_tag_some h with ⟨h1, h2⟩
    push_neg at hk
    refine ⟨h1, ?_, hk.1, hk.2⟩
    rw [h2]
    simp [ARL_USER_AUTH_TAG, CRT_TAG_PINREF, CRT_TAG_KUQ, KUQ_USER_AUTH,
      CRT_LEN_PINREF, CRT_LEN_KUQ]

theorem add_acl_tag_some {am : Nat} {ac : AcMethod} {k : Nat} {b b' : Buf}
    (h : add_acl_tag am ac k b = some b') :
    b'.size = b.size ∧ b'.data = b.data ++ aclChunk am ac k ∧
      acEncodable ac k = true := by
  unfold add_acl_tag at h
  rcases Option.bind_eq_some.mp h with ⟨b1, hstep, hpred⟩
  have hb1 : b1.size = b.size ∧
      b1.data = b.data ++ (if am ≠ 0xff
        then [ARL_ACCESS_MODE_BYTE_TAG, 1, am % 256] else []) := by
    by_cases ham : am ≠ 0xff
    · rw [if_pos ham] at hstep
      rw [asn1_put_tag1] at hstep
      rcases asn1_put_tag_some hstep with ⟨h1, h2⟩
      rw [if_pos ham]
      refine ⟨h1, ?_⟩
      rw [h2]
      simp [ARL_ACCESS_MODE_BYTE_TAG]
    · rw [if_neg ham] at hstep
      cases hstep
      rw [if_neg ham]
      simp
  rcases hb1 with ⟨hsz1, hdat1⟩
  cases ac with
  | acNone =>
    rw [asn1_put_tag0] at hpred
    rcases asn1_put_tag_some hpred with ⟨h1, h2⟩
    refine ⟨h1.trans hsz1, ?_, rfl⟩
    rw [h2, hdat1]
    simp [aclChunk, predChunk, ARL_ALWAYS_TAG]
  | acNever =>
    rw [asn1_put_tag0] at hpred
    rcases asn1_put_tag_some hpred with ⟨h1, h2⟩
    refine ⟨h1.trans hsz1, ?_, rfl⟩
    rw [h2, hdat1]
    simp [aclChunk, predChunk, ARL_NEVER_TAG]
  | acChv =>
    rcases authPredStep_some hpred with ⟨h1, h2, hk1, hk2⟩
    refine ⟨h1.trans hsz1, ?_, ?_⟩
    · rw [h2, hdat1]
      simp [aclChunk, predChunk]
    · simp only [acEncodable, decide_eq_true_eq]
      exact ⟨hk1, hk2⟩
  | acTerm =>
    rcases authPredStep_some hpred with ⟨h1, h2, hk1, hk2⟩
    refine ⟨h1.trans hsz1, ?_, ?_⟩
    · rw [h2, hdat1]
      simp [aclChunk, predChunk]
    · simp only [acEncodable, decide_eq_true_eq]
      exact ⟨hk1, hk2⟩
  | acAut =>
    rcases authPredStep_some hpred with ⟨h1, h2, hk1, hk2⟩
    refine ⟨h1.trans hsz1, ?_, ?_⟩
    · rw [h2, hdat1]
      simp [aclChunk, predChunk]
    · simp only [acEncodable, decide_eq_true_eq]
      exact ⟨hk1, hk2⟩
  | acOther code =>
    simp at hpred

attribute [simp] ARL_ACCESS_MODE_BYTE_TAG ARL_ACCESS_MODE_BYTE_LEN
  ARL_COMMAND_TAG ARL_ALWAYS_TAG ARL_ALWAYS_LEN ARL_NEVER_TAG ARL_NEVER_LEN
  ARL_USER_AUTH_TAG ARL_USER_AUTH_LEN ARL_DUMMY_TAG ARL_DUMMY_LEN
  CRT_TAG_PINREF CRT_LEN_PINREF CRT_TAG_KUQ CRT_LEN_KUQ CRT_TAG_KEYREF
  KUQ_USER_AUTH KUQ_DECRYPT BACKTRACK_PIN BACKTRACK_MASK
  CARDOS5_PUT_DATA_INS CARDOS5_PUT_DATA_ECD_P1 CARDOS5_PUT_DATA_ECD_P2
  CARDOS5_PHASE_CONTROL_CLA CARDOS5_PHASE_CONTROL_INS
  CARDOS5_PHASE_CONTROL_P1_TOGGLE CARDOS5_PHASE_CONTROL_P2_TOGGLE
  CARDOS5_ACCUMULATE_OBJECT_DATA_CLA CARDOS5_ACCUMULATE_OBJECT_DATA_INS
  CARDOS5_ACCUMULATE_OBJECT_DATA_P1_NEW CARDOS5_ACCUMULATE_OBJECT_DATA_P1_APPEND
  UINT8_MAX UINT16_MAX INT8_MAX

theorem arlAddRows_some {g : Nat × Option Nat → AcMethod × Nat} :
    ∀ {tbl : List (Nat × Option Nat)} {b b' : Buf},
    arlAddRows g tbl b = some b' →
    b'.size = b.size ∧
      b'.data = b.data ++
        (tbl.map (fun row => aclChunk row.1 (g row).1 (g row).2)).join ∧
      ∀ row ∈ tbl, acEncodable (g row).1 (g row).2 = true := by
  intro tbl
  induction tbl with
  | nil =>
    intro b b' h
    cases h
    simp
  | cons row rows ih =>
    intro b b' h
    unfold arlAddRows at h
    rcases hstep : add_acl_tag row.1 (g row).1 (g row).2 b with _ | b1
    · rw [hstep] at h
      cases h
    rw [hstep] at h
    rcases add_acl_tag_some hstep with ⟨hsz1, hdat1, henc1⟩
    rcases ih h with ⟨hsz2, hdat2, henc2⟩
    refine ⟨hsz2.trans hsz1, ?_, ?_⟩
    · rw [hdat2, hdat1]
      simp
    · intro r hr
      rcases List.mem_cons.mp hr with hr | hr
      · rw [hr]
        exact henc1
      · exact henc2 r hr

theorem efArlBuild_some {f : ScFile} {b : Buf} (h : efArlBuild f = some b) :
    b.data = efTableBytes f ∧
      ∀ row ∈ efAclTable,
        acEncodable (efRowAc f row).1 (efRowAc f row).2 = true := by
  unfold efArlBuild at h
  rcases arlAddRows_some h with ⟨_, hdat, henc⟩
  refine ⟨?_, henc⟩
  rw [hdat]
  simp [efTableBytes]

theorem dfArlBuild_some {f : ScFile} {b : Buf} (h : dfArlBuild f = some b) :
    b.data = dfUpdChunk f ++ dfTableBytes f ++ dfTailChunks ∧
      (∀ row ∈ dfAclTable,
        acEncodable (dfRowAc f row).1 (dfRowAc f row).2 = true) ∧
      (∀ e, sc_file_get_acl_entry f SC_AC_OP_UPDATE = some e →
        acEncodable e.method e.key_ref = true) := by
  unfold dfArlBuild at h
  rcases Option.bind_eq_some.mp h with ⟨b1, hupd, h2⟩
  rcases Option.bind_eq_some.mp h2 with ⟨b2, hrows, h3⟩
  rcases Option.bind_eq_some.mp h3 with ⟨b3, hc1, h4⟩
  rcases Option.bind_eq_some.mp h4 with ⟨b4, ha1, h5⟩
  rcases Option.bind_eq_some.mp h5 with ⟨b5, hc2, h6⟩
  rcases Option.bind_eq_some.mp h6 with ⟨b6, ha2, h7⟩
  rcases Option.bind_eq_some.mp h7 with ⟨b7, hc3, ha3⟩
  have hb1 : b1.data = dfUpdChunk f ∧
      (∀ e, sc_file_get_acl_entry f SC_AC_OP_UPDATE = some e →
        acEncodable e.method e.key_ref = true) := by
    cases hget : sc_file_get_acl_entry f SC_AC_OP_UPDATE with
    | none =>
      rw [hget] at hupd
      cases hupd
      simp [dfUpdChunk, hget]
    | some e =>
      rw [hget] at hupd
      rcases Option.bind_eq_some.mp hupd with ⟨bz, hz1, hz2⟩
      rcases asn1_put_tag_some hz1 with ⟨_, hzd⟩
      rcases add_acl_tag_some hz2 with ⟨_, hzd2, henc⟩
      constructor
      · rw [hzd2, hzd]
        simp [dfUpdChunk, hget, aclChunk]
      · intro e2 he2
        cases he2
        exact henc
  rcases hb1 with ⟨hb1d, hupdenc⟩
  rcases arlAddRows_some hrows with ⟨_, hb2d, henc⟩
  rcases asn1_put_tag_some hc1 with ⟨_, hb3d⟩
  rcases asn1_put_tag_some ha1 with ⟨_, hb4d⟩
  rcases asn1_put_tag_some hc2 with ⟨_, hb5d⟩
  rcases asn1_put_tag_some ha2 with ⟨_, hb6d⟩
  rcases asn1_put_tag_some hc3 with ⟨_, hb7d⟩
  rcases asn1_put_tag_some ha3 with ⟨_, hbd⟩
  refine ⟨?_, henc, hupdenc⟩
  rw [hbd, hb7d, hb6d, hb5d, hb4d, hb3d, hb2d, hb1d]
  simp [dfTableBytes, dfTailChunks, cmdAlwaysChunk, asn1_put_tag0]

/-! ## Parser stepping lemmas -/

/-- The ACL entry the decoders derive back from one encoded AM-scoped
entry: nothing for unmapped rows; Always and Never entries carry
`SC_AC_KEY_REF_NONE`, user-authentication entries decode to CHV with
the encoded reference. -/
def decodedEntry (op? : Option Nat) (ac : AcMethod) (k : Nat) : List PEntry :=
  match op? with
  | none => []
  | some op =>
    match ac with
    | .acNone => [(op, .acNone, SC_AC_KEY_REF_NONE)]
    | .acNever => [(op, .acNever, SC_AC_KEY_REF_NONE)]
    | _ => [(op, .acChv, k)]

set_option maxRecDepth 4096 in
theorem land127_eq : ∀ k < 256, k &&& 128 = 0 → k &&& 127 = k := by decide

theorem land128_lt (m : Nat) (h : m < 128) : m &&& 128 = 0 := by
  rw [show (128 : Nat) = 2 ^ 7 from by norm_num, Nat.and_two_pow]
  have h3 : m.testBit 7 = false := Nat.testBit_lt_two_pow (by omega)
  simp [h3]

theorem parseDfArlLoop_acl_step (am : Nat) (op? : Option Nat) (ac : AcMethod)
    (k : Nat) (rest : List Nat) (ham : am < 256) (hcmd : am ≠ 0xff)
    (hfind : dfAclTable.find? (fun p => p.1 == am) = some (am, op?))
    (hac : acEncodable ac k = true) :
    parseDfArlLoop (aclChunk am ac k ++ rest) =
      match parseDfArlLoop rest with
      | .error e => .error e
      | .ok es => .ok (decodedEntry op? ac k ++ es) := by
  have hlen : ∀ n : Nat, ¬ (5 + (n + 6) < 11) := fun n => by omega
  cases ac with
  | acNone =>
    rw [show aclChunk am AcMethod.acNone k ++ rest =
        ARL_ACCESS_MODE_BYTE_TAG :: 1 :: am :: ARL_ALWAYS_TAG :: 0 :: rest from
        by simp [aclChunk, predChunk, Nat.mod_eq_of_lt ham, hcmd]]
    rw [parseDfArlLoop]
    simp [hfind]
    cases op? <;> cases parseDfArlLoop rest <;> simp [decodedEntry]
  | acNever =>
    rw [show aclChunk am AcMethod.acNever k ++ rest =
        ARL_ACCESS_MODE_BYTE_TAG :: 1 :: am :: ARL_NEVER_TAG :: 0 :: rest from
        by simp [aclChunk, predChunk, Nat.mod_eq_of_lt ham, hcmd]]
    rw [parseDfArlLoop]
    simp [hfind]
    cases op? <;> cases parseDfArlLoop rest <;> simp [decodedEntry]
  | acChv =>
    simp only [acEncodable, decide_eq_true_eq, BACKTRACK_PIN, UINT8_MAX] at hac
    have hk : k % 256 = k := Nat.mod_eq_of_lt (by omega)
    have hmask : k &&& 127 = k := land127_eq k (by omega) hac.1
    rw [show aclChunk am AcMethod.acChv k ++ rest =
        ARL_ACCESS_MODE_BYTE_TAG :: 1 :: am :: ARL_USER_AUTH_TAG :: 6 ::
          (CRT_TAG_PINREF :: 1 :: k :: CRT_TAG_KUQ :: 1 :: KUQ_USER_AUTH ::
            rest) from
        by simp [aclChunk, predChunk, Nat.mod_eq_of_lt ham, hcmd, hk]]
    rw [parseDfArlLoop]
    simp [hfind, hlen, hmask]
    cases op? <;> cases parseDfArlLoop rest <;> simp [decodedEntry]
  | acTerm =>
    simp only [acEncodable, decide_eq_true_eq, BACKTRACK_PIN, UINT8_MAX] at hac
    have hk : k % 256 = k := Nat.mod_eq_of_lt (by omega)
    have hmask : k &&& 127 = k := land127_eq k (by omega) hac.1
    rw [show aclChunk am AcMethod.acTerm k ++ rest =
        ARL_ACCESS_MODE_BYTE_TAG :: 1 :: am :: ARL_USER_AUTH_TAG :: 6 ::
          (CRT_TAG_PINREF :: 1 :: k :: CRT_TAG_KUQ :: 1 :: KUQ_USER_AUTH ::
            rest) from
        by simp [aclChunk, predChunk, Nat.mod_eq_of_lt ham, hcmd, hk]]
    rw [parseDfArlLoop]
    simp [hfind, hlen, hmask]
    cases op? <;> cases parseDfArlLoop rest <;> simp [decodedEntry]
  | acAut =>
    simp only [acEncodable, decide_eq_true_eq, BACKTRACK_PIN, UINT8_MAX] at hac
    have hk : k % 256 = k := Nat.mod_eq_of_lt (by omega)
    have hmask : k &&& 127 = k := land127_eq k (by omega) hac.1
    rw [show aclChunk am AcMethod.acAut k ++ rest =
        ARL_ACCESS_MODE_BYTE_TAG :: 1 :: am :: ARL_USER_AUTH_TAG :: 6 ::
          (CRT_TAG_PINREF :: 1 :: k :: CRT_TAG_KUQ :: 1 :: KUQ_USER_AUTH ::
            rest) from
        by simp [aclChunk, predChunk, Nat.mod_eq_of_lt ham, hcmd, hk]]
    rw [parseDfArlLoop]
    simp [hfind, hlen, hmask]
    cases op? <;> cases parseDfArlLoop rest <;> simp [decodedEntry]
  | acOther code =>
    simp [acEncodable] at hac

theorem parseDfArlLoop_cmd_step (c0 c1 c2 c3 : Nat) (ac : AcMethod) (k : Nat)
    (rest : List Nat) (hac : acEncodable ac k = true) :
    parseDfArlLoop (([ARL_COMMAND_TAG, 4, c0, c1, c2, c3] ++ predChunk ac k) ++
        rest) =
      parseDfArlLoop rest := by
  have hlen8 : ∀ n : Nat, ¬ (5 + (n + 3) < 8) := fun n => by omega
  have hlen14 : ∀ n : Nat, ¬ (5 + (n + 9) < 6 + 8) := fun n => by omega
  cases ac with
  | acNone =>
    rw [show ([ARL_COMMAND_TAG, 4, c0, c1, c2, c3] ++
        predChunk AcMethod.acNone k) ++ rest =
        ARL_COMMAND_TAG :: 4 :: c0 :: c1 :: c2 ::
          (c3 :: ARL_ALWAYS_TAG :: 0 :: rest) from by simp [predChunk]]
    rw [parseDfArlLoop]
    simp [hlen8]
  | acNever =>
    rw [show ([ARL_COMMAND_TAG, 4, c0, c1, c2, c3] ++
        predChunk AcMethod.acNever k) ++ rest =
        ARL_COMMAND_TAG :: 4 :: c0 :: c1 :: c2 ::
          (c3 :: ARL_NEVER_TAG :: 0 :: rest) from by simp [predChunk]]
    rw [parseDfArlLoop]
    simp [hlen8]
  | acChv =>
    rw [show ([ARL_COMMAND_TAG, 4, c0, c1, c2, c3] ++
        predChunk AcMethod.acChv k) ++ rest =
        ARL_COMMAND_TAG :: 4 :: c0 :: c1 :: c2 ::
          (c3 :: ARL_USER_AUTH_TAG :: 6 :: CRT_TAG_PINREF :: 1 :: k % 256 ::
            CRT_TAG_KUQ :: 1 :: KUQ_USER_AUTH :: rest) from by simp [predChunk]]
    rw [parseDfArlLoop]
    simp [hlen14]
    intro hcontra
    exact absurd hcontra (by omega)
  | acTerm =>
    rw [show ([ARL_COMMAND_TAG, 4, c0, c1, c2, c3] ++
        predChunk AcMethod.acTerm k) ++ rest =
        ARL_COMMAND_TAG :: 4 :: c0 :: c1 :: c2 ::
          (c3 :: ARL_USER_AUTH_TAG :: 6 :: CRT_TAG_PINREF :: 1 :: k % 256 ::
            CRT_TAG_KUQ :: 1 :: KUQ_USER_AUTH :: rest) from by simp [predChunk]]
    rw [parseDfArlLoop]
    simp [hlen14]
    intro hcontra
    exact absurd hcontra (by omega)
  | acAut =>
    rw [show ([ARL_COMMAND_TAG, 4, c0, c1, c2, c3] ++
        predChunk AcMethod.acAut k) ++ rest =
        ARL_COMMAND_TAG :: 4 :: c0 :: c1 :: c2 ::
          (c3 :: ARL_USER_AUTH_TAG :: 6 :: CRT_TAG_PINREF :: 1 :: k % 256 ::
            CRT_TAG_KUQ :: 1 :: KUQ_USER_AUTH :: rest) from by simp [predChunk]]
    rw [parseDfArlLoop]
    simp [hlen14]
    intro hcontra
    exact absurd hcontra (by omega)
  | acOther code =>
    simp [acEncodable] at hac

theorem parseEfArlLoop_acl_step (am : Nat) (op? : Option Nat) (ac : AcMethod)
    (k : Nat) (rest : List Nat) (ham : am < 256) (hcmd : am ≠ 0xff)
    (hfind : efAclTable.find? (fun p => p.1 == am) = some (am, op?))
    (hac : acEncodable ac k = true) :
    parseEfArlLoop (aclChunk am ac k ++ rest) =
      match parseEfArlLoop rest with
      | .error e => .error e
      | .ok es => .ok (decodedEntry op? ac k ++ es) := by
  have hlen : ∀ n : Nat, ¬ (5 + (n + 6) < 11) := fun n => by omega
  cases ac with
  | acNone =>
    rw [show aclChunk am AcMethod.acNone k ++ rest =
        ARL_ACCESS_MODE_BYTE_TAG :: 1 :: am :: ARL_ALWAYS_TAG :: 0 :: rest from
        by simp [aclChunk, predChunk, Nat.mod_eq_of_lt ham, hcmd]]
    rw [parseEfArlLoop]
    simp [hfind]
    cases op? <;> cases parseEfArlLoop rest <;> simp [decodedEntry]
  | acNever =>
    rw [show aclChunk am AcMethod.acNever k ++ rest =
        ARL_ACCESS_MODE_BYTE_TAG :: 1 :: am :: ARL_NEVER_TAG :: 0 :: rest from
        by simp [aclChunk, predChunk, Nat.mod_eq_of_lt ham, hcmd]]
    rw [parseEfArlLoop]
    simp [hfind]
    cases op? <;> cases parseEfArlLoop rest <;> simp [decodedEntry]
  | acChv =>
    simp only [acEncodable, decide_eq_true_eq, BACKTRACK_PIN, UINT8_MAX] at hac
    have hk : k % 256 = k := Nat.mod_eq_of_lt (by omega)
    have hmask : k &&& 127 = k := land127_eq k (by omega) hac.1
    rw [show aclChunk am AcMethod.acChv k ++ rest =
        ARL_ACCESS_MODE_BYTE_TAG :: 1 :: am :: ARL_USER_AUTH_TAG :: 6 ::
          (CRT_TAG_PINREF :: 1 :: k :: CRT_TAG_KUQ :: 1 :: KUQ_USER_AUTH ::
            rest) from
        by simp [aclChunk, predChunk, Nat.mod_eq_of_lt ham, hcmd, hk]]
    rw [parseEfArlLoop]
    simp [hfind, hlen, hmask]
    cases op? <;> cases parseEfArlLoop rest <;> simp [decodedEntry]
  | acTerm =>
    simp only [acEncodable, decide_eq_true_eq, BACKTRACK_PIN, UINT8_MAX] at hac
    have hk : k % 256 = k := Nat.mod_eq_of_lt (by omega)
    have hmask : k &&& 127 = k := land127_eq k (by omega) hac.1
    rw [show aclChunk am AcMethod.acTerm k ++ rest =
        ARL_ACCESS_MODE_BYTE_TAG :: 1 :: am :: ARL_USER_AUTH_TAG :: 6 ::
          (CRT_TAG_PINREF :: 1 :: k :: CRT_TAG_KUQ :: 1 :: KUQ_USER_AUTH ::
            rest) from
        by simp [aclChunk, predChunk, Nat.mod_eq_of_lt ham, hcmd, hk]]
    rw [parseEfArlLoop]
    simp [hfind, hlen, hmask]
    cases op? <;> cases parseEfArlLoop rest <;> simp [decodedEntry]
  | acAut =>
    simp only [acEncodable, decide_eq_true_eq, BACKTRACK_PIN, UINT8_MAX] at hac
    have hk : k % 256 = k := Nat.mod_eq_of_lt (by omega)
    have hmask : k &&& 127 = k := land127_eq k (by omega) hac.1
    rw [show aclChunk am AcMethod.acAut k ++ rest =
        ARL_ACCESS_MODE_BYTE_TAG :: 1 :: am :: ARL_USER_AUTH_TAG :: 6 ::
          (CRT_TAG_PINREF :: 1 :: k :: CRT_TAG_KUQ :: 1 :: KUQ_USER_AUTH ::
            rest) from
        by simp [aclChunk, predChunk, Nat.mod_eq_of_lt ham, hcmd, hk]]
    rw [parseEfArlLoop]
    simp [hfind, hlen, hmask]
    cases op? <;> cases parseEfArlLoop rest <;> simp [decodedEntry]
  | acOther code =>
    simp [acEncodable] at hac

/-- The entries parse_df_arl adds back for the AM-table portion of a DF
ARL built from `f`. -/
def dfDecodedEntries (f : ScFile) : List PEntry :=
  (dfAclTable.map
    (fun row => decodedEntry row.2 (dfRowAc f row).1 (dfRowAc f row).2)).join

/-- The entries parse_ef_arl adds back for the AM-table portion of an
EF ARL built from `f`. -/
def efDecodedEntries (f : ScFile) : List PEntry :=
  (efAclTable.map
    (fun row => decodedEntry row.2 (efRowAc f row).1 (efRowAc f row).2)).join

theorem parseDfArlLoop_chunks (f : ScFile) :
    ∀ tbl : List (Nat × Option Nat),
    (∀ row ∈ tbl, row.1 < 256 ∧ row.1 ≠ 0xff ∧
      dfAclTable.find? (fun p => p.1 == row.1) = some row) →
    (∀ row ∈ tbl, acEncodable (dfRowAc f row).1 (dfRowAc f row).2 = true) →
    ∀ tail : List Nat,
    parseDfArlLoop
        ((tbl.map (fun row =>
          aclChunk row.1 (dfRowAc f row).1 (dfRowAc f row).2)).join ++ tail) =
      match parseDfArlLoop tail with
      | .error e => .error e
      | .ok es => .ok ((tbl.map (fun row =>
          decodedEntry row.2 (dfRowAc f row).1 (dfRowAc f row).2)).join ++ es)
    := by
  intro tbl
  induction tbl with
  | nil =>
    intro _ _ tail
    simp only [List.map_nil, List.join, List.nil_append]
    cases h : parseDfArlLoop tail <;> simp [h]
  | cons row rows ih =>
    intro hsub henc tail
    have hrow := hsub row (List.mem_cons_self row rows)
    have hrowenc := henc row (List.mem_cons_self row rows)
    have hfind : dfAclTable.find? (fun p => p.1 == row.1) =
        some (row.1, row.2) := by
      rw [hrow.2.2]
    rw [show ((row :: rows).map (fun r =>
        aclChunk r.1 (dfRowAc f r).1 (dfRowAc f r).2)).join ++ tail =
        aclChunk row.1 (dfRowAc f row).1 (dfRowAc f row).2 ++
          ((rows.map (fun r =>
            aclChunk r.1 (dfRowAc f r).1 (dfRowAc f r).2)).join ++ tail) from
      by simp]
    rw [parseDfArlLoop_acl_step row.1 row.2 (dfRowAc f row).1 (dfRowAc f row).2
      _ hrow.1 hrow.2.1 hfind hrowenc]
    rw [ih (fun r hr => hsub r (List.mem_cons_of_mem row hr))
      (fun r hr => henc r (List.mem_cons_of_mem row hr)) tail]
    cases parseDfArlLoop tail <;> simp

theorem parseEfArlLoop_chunks (f : ScFile) :
    ∀ tbl : List (Nat × Option Nat),
    (∀ row ∈ tbl, row.1 < 256 ∧ row.1 ≠ 0xff ∧
      efAclTable.find? (fun p => p.1 == row.1) = some row) →
    (∀ row ∈ tbl, acEncodable (efRowAc f row).1 (efRowAc f row).2 = true) →
    ∀ tail : List Nat,
    parseEfArlLoop
        ((tbl.map (fun row =>
          aclChunk row.1 (efRowAc f row).1 (efRowAc f row).2)).join ++ tail) =
      match parseEfArlLoop tail with
      | .error e => .error e
      | .ok es => .ok ((tbl.map (fun row =>
          decodedEntry row.2 (efRowAc f row).1 (efRowAc f row).2)).join ++ es)
    := by
  intro tbl
  induction tbl with
  | nil =>
    intro _ _ tail
    simp only [List.map_nil, List.join, List.nil_append]
    cases h : parseEfArlLoop tail <;> simp [h]
  | cons row rows ih =>
    intro hsub henc tail
    have hrow := hsub row (List.mem_cons_self row rows)
    have hrowenc := henc row (List.mem_cons_self row rows)
    have hfind : efAclTable.find? (fun p => p.1 == row.1) =
        some (row.1, row.2) := by
      rw [hrow.2.2]
    rw [show ((row :: rows).map (fun r =>
        aclChunk r.1 (efRowAc f r).1 (efRowAc f r).2)).join ++ tail =
        aclChunk row.1 (efRowAc f row).1 (efRowAc f row).2 ++
          ((rows.map (fun r =>
            aclChunk r.1 (efRowAc f r).1 (efRowAc f r).2)).join ++ tail) from
      by simp]
    rw [parseEfArlLoop_acl_step row.1 row.2 (efRowAc f row).1 (efRowAc f row).2
      _ hrow.1 hrow.2.1 hfind hrowenc]
    rw [ih (fun r hr => hsub r (List.mem_cons_of_mem row hr))
      (fun r hr => henc r (List.mem_cons_of_mem row hr)) tail]
    cases parseEfArlLoop tail <;> simp

theorem dfAclTable_rows :
    ∀ row ∈ dfAclTable, row.1 < 256 ∧ row.1 ≠ 0xff ∧
      dfAclTable.find? (fun p => p.1 == row.1) = some row := by decide

theorem efAclTable_rows :
    ∀ row ∈ efAclTable, row.1 < 256 ∧ row.1 ≠ 0xff ∧
      efAclTable.find? (fun p => p.1 == row.1) = some row := by decide

theorem parseDfArlLoop_tail : parseDfArlLoop dfTailChunks = .ok [] := by decide

/-- Whether an access method is one of the five the driver handles. -/
def methodLegal : AcMethod → Bool
  | .acNone => true
  | .acNever => true
  | .acChv => true
  | .acTerm => true
  | .acAut => true
  | .acOther _ => false

/-- The legality condition of the round-trip claim: every ACL entry of
the file has a handled method and a byte-sized key reference without
the backtrack bit. -/
def legalAclEntries (f : ScFile) : Bool :=
  f.acl.all (fun p => methodLegal p.2.method &&
    decide (p.2.key_ref &&& BACKTRACK_PIN = 0) &&
    decide (p.2.key_ref ≤ UINT8_MAX))

/-- What an ACL entry becomes after the encode/decode round trip: the
methods None and Never survive with the key reference replaced by
`SC_AC_KEY_REF_NONE`; the three user-authentication methods all come
back as CHV with the key reference preserved. -/
def collapse (e : AclEntry) : AcMethod × Nat :=
  match e.method with
  | .acNone => (.acNone, SC_AC_KEY_REF_NONE)
  | .acNever => (.acNever, SC_AC_KEY_REF_NONE)
  | .acChv => (.acChv, e.key_ref)
  | .acTerm => (.acChv, e.key_ref)
  | .acAut => (.acChv, e.key_ref)
  | .acOther _ => (.acChv, e.key_ref)

theorem legal_lookup {f : ScFile} (hleg : legalAclEntries f = true) {op : Nat}
    {e : AclEntry} (h : sc_file_get_acl_entry f op = some e) :
    methodLegal e.method = true ∧ e.key_ref &&& BACKTRACK_PIN = 0 ∧
      e.key_ref ≤ UINT8_MAX := by
  unfold sc_file_get_acl_entry at h
  rcases hfind : f.acl.find? (fun p => p.1 == op) with _ | p
  · rw [hfind] at h
    cases h
  · rw [hfind] at h
    have hmem := List.mem_of_find?_eq_some hfind
    have hall := (List.all_eq_true.mp hleg) p hmem
    simp only [Option.map_some'] at h
    cases h
    simp only [Bool.and_eq_true, decide_eq_true_eq] at hall
    exact ⟨hall.1.1, hall.1.2, hall.2⟩

theorem decodedEntry_of_entry (op : Nat) (e : AclEntry) :
    decodedEntry (some op) e.method e.key_ref =
      [(op, (collapse e).1, (collapse e).2)] := by
  cases he : e.method <;> simp [decodedEntry, collapse, he]

/-- C1, amended: for a DF or working EF with in-range size and id and
legal ACL entries, whenever the ARL builder used by construct_fcp
succeeds, parsing the produced ARL bytes with parse_arl succeeds, every
mapped AM-table row with a host ACL entry is reproduced up to the
round-trip collapse (CHV, Term and Aut all return as CHV with the same
key reference; None and Never return with key reference
SC_AC_KEY_REF_NONE), and every mapped AM-table row without a host ACL
entry is reproduced with method Never. -/
theorem c1_fcp_arl_roundtrip (f : ScFile) (b : Buf)
    (hsize : f.size ≤ 65535) (hid : 0 ≤ f.id ∧ f.id ≤ 65535)
    (hleg : legalAclEntries f = true)
    (hbuild : (f.ftype = SC_FILE_TYPE_DF ∧ dfArlBuild f = some b) ∨
      (f.ftype = SC_FILE_TYPE_WORKING_EF ∧ efArlBuild f = some b)) :
    ∃ es, parse_arl f.ftype b.data = .ok es ∧
      (f.ftype = SC_FILE_TYPE_DF →
        ∀ row ∈ dfAclTable, ∀ op, row.2 = some op →
          (∀ e, sc_file_get_acl_entry f op = some e →
            (op, (collapse e).1, (collapse e).2) ∈ es) ∧
          (sc_file_get_acl_entry f op = none →
            (op, AcMethod.acNever, SC_AC_KEY_REF_NONE) ∈ es)) ∧
      (f.ftype = SC_FILE_TYPE_WORKING_EF →
        ∀ row ∈ efAclTable, ∀ op, row.2 = some op →
          (∀ e, sc_file_get_acl_entry f op = some e →
            (op, (collapse e).1, (collapse e).2) ∈ es) ∧
          (sc_file_get_acl_entry f op = none →
            (op, AcMethod.acNever, SC_AC_KEY_REF_NONE) ∈ es)) := by
  rcases hbuild with ⟨hty, hb⟩ | ⟨hty, hb⟩
  · rcases dfArlBuild_some hb with ⟨hdata, henc, hupdenc⟩
    have hmid : parseDfArlLoop (dfTableBytes f ++ dfTailChunks) =
        .ok (dfDecodedEntries f) := by
      have hch := parseDfArlLoop_chunks f dfAclTable dfAclTable_rows henc
        dfTailChunks
      rw [parseDfArlLoop_tail] at hch
      simpa [dfTableBytes, dfDecodedEntries] using hch
    have hparse : parseDfArlLoop b.data = .ok (dfDecodedEntries f) := by
      rw [hdata, List.append_assoc]
      cases hget : sc_file_get_acl_entry f SC_AC_OP_UPDATE with
      | none =>
        rw [show dfUpdChunk f = [] from by simp [dfUpdChunk, hget]]
        rw [List.nil_append]
        exact hmid
      | some e =>
        rw [show dfUpdChunk f =
            [ARL_COMMAND_TAG, 4, 0x00, CARDOS5_PUT_DATA_INS,
              CARDOS5_PUT_DATA_ECD_P1, CARDOS5_PUT_DATA_ECD_P2] ++
              predChunk e.method e.key_ref from by simp [dfUpdChunk, hget]]
        rw [parseDfArlLoop_cmd_step _ _ _ _ _ _ _ (hupdenc e hget)]
        exact hmid
    have hlen : b.data.length ≠ 9 := by
      rw [hdata]
      simp only [List.length_append]
      have h24 : dfTailChunks.length = 24 := by decide
      omega
    have hparse2 : parse_arl f.ftype b.data = .ok (dfDecodedEntries f) := by
      rw [hty]
      unfold parse_arl
      rw [if_pos rfl]
      unfold parse_df_arl
      rw [if_neg (by intro hcontra; exact hlen hcontra.1)]
      exact hparse
    refine ⟨dfDecodedEntries f, hparse2, ?_, ?_⟩
    · intro _ row hrow op hop
      constructor
      · intro e he
        have hd : decodedEntry row.2 (dfRowAc f row).1 (dfRowAc f row).2 =
            [(op, (collapse e).1, (collapse e).2)] := by
          rw [hop]
          rw [show dfRowAc f row = (e.method, e.key_ref) from by
            simp [dfRowAc, hop, he]]
          exact decodedEntry_of_entry op e
        refine List.mem_join.mpr
          ⟨decodedEntry row.2 (dfRowAc f row).1 (dfRowAc f row).2,
            List.mem_map_of_mem _ hrow, ?_⟩
        rw [hd]
        simp
      · intro hnone
        have hd : decodedEntry row.2 (dfRowAc f row).1 (dfRowAc f row).2 =
            [(op, AcMethod.acNever, SC_AC_KEY_REF_NONE)] := by
          rw [hop]
          rw [show dfRowAc f row = (AcMethod.acNever, UINT_MAX) from by
            simp [dfRowAc, hop, hnone]]
          simp [decodedEntry]
        refine List.mem_join.mpr
          ⟨decodedEntry row.2 (dfRowAc f row).1 (dfRowAc f row).2,
            List.mem_map_of_mem _ hrow, ?_⟩
        rw [hd]
        simp
    · intro hef
      rw [hty] at hef
      simp [SC_FILE_TYPE_DF, SC_FILE_TYPE_WORKING_EF] at hef
  · rcases efArlBuild_some hb with ⟨hdata, henc⟩
    have hparse : parseEfArlLoop b.data = .ok (efDecodedEntries f) := by
      have hch := parseEfArlLoop_chunks f efAclTable efAclTable_rows henc []
      rw [show parseEfArlLoop [] = .ok [] from rfl] at hch
      rw [hdata]
      simpa [efTableBytes, efDecodedEntries] using hch
    have hparse2 : parse_arl f.ftype b.data = .ok (efDecodedEntries f) := by
      rw [hty]
      unfold parse_arl
      rw [if_neg (by simp [SC_FILE_TYPE_DF, SC_FILE_TYPE_WORKING_EF]),
        if_pos rfl]
      exact hparse
    refine ⟨efDecodedEntries f, hparse2, ?_, ?_⟩
    · intro hdf
      rw [hty] at hdf
      simp [SC_FILE_TYPE_DF, SC_FILE_TYPE_WORKING_EF] at hdf
    · intro _ row hrow op hop
      constructor
      · intro e he
        have hk : e.key_ref % 256 = e.key_ref :=
          Nat.mod_eq_of_lt (by
            have := (legal_lookup hleg he).2.2
            simp only [UINT8_MAX] at this
            omega)
        have hd : decodedEntry row.2 (efRowAc f row).1 (efRowAc f row).2 =
            [(op, (collapse e).1, (collapse e).2)] := by
          rw [hop]
          rw [show efRowAc f row = (e.method, e.key_ref % 256) from by
            simp [efRowAc, hop, he]]
          rw [hk]
          exact decodedEntry_of_entry op e
        refine List.mem_join.mpr
          ⟨decodedEntry row.2 (efRowAc f row).1 (efRowAc f row).2,
            List.mem_map_of_mem _ hrow, ?_⟩
        rw [hd]
        simp
      · intro hnone
        have hd : decodedEntry row.2 (efRowAc f row).1 (efRowAc f row).2 =
            [(op, AcMethod.acNever, SC_AC_KEY_REF_NONE)] := by
          rw [hop]
          rw [show efRowAc f row = (AcMethod.acNever, UINT_MAX) from by
            simp [efRowAc, hop, hnone]]
          simp [decodedEntry]
        refine List.mem_join.mpr
          ⟨decodedEntry row.2 (efRowAc f row).1 (efRowAc f row).2,
            List.mem_map_of_mem _ hrow, ?_⟩
        rw [hd]
        simp

/-! ## Signature post-processor lemmas -/

/-- The length octets bertlv_put_tag emits for a given content length. -/
def bertlvLenBytes (n : Nat) : List Nat :=
  if n < 0x80 then [n]
  else if n < 0xFF then [0x81, n % 256]
  else [0x82, n / 256 % 256, n % 256]

/-- The ASN.1 INTEGER encoding extract_coordinate produces for one raw
coordinate below 127 bytes: a zero pad byte is inserted when the
leading byte has the high bit set. -/
def intEnc (C : List Nat) : List Nat :=
  if C.getD 0 0 &&& 0x80 ≠ 0 then 0x02 :: (C.length + 1) :: 0x00 :: C
  else 0x02 :: C.length :: C

theorem sub64_big {a b : Nat} (ha : a < b) (hb : b ≤ 4294967296) :
    65536 ≤ sub64 a b := by
  unfold sub64
  have h1 : a % 18446744073709551616 = a := Nat.mod_eq_of_lt (by omega)
  have h2 : b % 18446744073709551616 = b := Nat.mod_eq_of_lt (by omega)
  rw [h1, h2]
  have h3 : a + 18446744073709551616 - b < 18446744073709551616 := by omega
  rw [Nat.mod_eq_of_lt h3]
  omega

theorem sub64_eq {a b : Nat} (hb : b ≤ a) (ha : a ≤ 18446744073709551615) :
    sub64 a b = a - b := by
  unfold sub64
  have h1 : a % 18446744073709551616 = a := Nat.mod_eq_of_lt (by omega)
  have h2 : b % 18446744073709551616 = b := Nat.mod_eq_of_lt (by omega)
  rw [h1, h2]
  have h3 : a + 18446744073709551616 - b =
      (a - b) + 18446744073709551616 := by omega
  rw [h3, Nat.add_mod_right]
  exact Nat.mod_eq_of_lt (by omega)

theorem bertlvLenStep_small {n cap : Nat} {pre : List Nat}
    (hn : n ≤ 65535) (hcap2 : cap ≤ 4294967296)
    (hroom : pre.length + 3 ≤ cap) :
    bertlvLenStep n ⟨cap, pre⟩ =
      some ⟨cap, pre ++ bertlvLenBytes n⟩ := by
  unfold bertlvLenStep bertlvLenBytes
  by_cases h1 : n < 0x80
  · rw [if_pos h1, if_pos h1,
      if_neg (show ¬ (pre.length = cap) from by omega)]
  · rw [if_neg h1, if_neg h1]
    by_cases h2 : n < 0xFF
    · rw [if_pos h2, if_pos h2]
      rw [show sub64 cap pre.length = cap - pre.length from
        sub64_eq (by omega) (by omega)]
      rw [if_neg (show ¬ (cap - pre.length < 2) from by omega)]
    · rw [if_neg h2, if_neg h2]
      rw [show sub64 cap pre.length = cap - pre.length from
        sub64_eq (by omega) (by omega)]
      rw [if_neg (show ¬ (cap - pre.length < 3) from by omega)]

theorem bertlvLenBytes_short (n : Nat) : (bertlvLenBytes n).length ≤ 3 := by
  unfold bertlvLenBytes
  split
  · simp
  · split <;> simp

theorem bertlv_put_tag_small {t : Nat} {data : List Nat} {cap : Nat}
    (hn : data.length ≤ 65535) (hcap : 4 < cap) (hcap2 : cap ≤ 4294967296) :
    bertlv_put_tag t data ⟨cap, []⟩ =
      some ⟨cap, t % 256 :: (bertlvLenBytes data.length ++ data)⟩ := by
  unfold bertlv_put_tag
  simp only [UINT16_MAX, List.length_nil, List.nil_append, gt_iff_lt]
  rw [if_neg (show ¬ (65535 < data.length ∨ 0 = cap) from by omega)]
  rw [bertlvLenStep_small hn hcap2
    (show [t % 256].length + 3 ≤ cap from by simp; omega)]
  rw [Option.some_bind]
  have hlb := bertlvLenBytes_short data.length
  rw [show sub64 ([t % 256] ++ bertlvLenBytes data.length).length cap =
      65536 + (sub64 ([t % 256] ++ bertlvLenBytes data.length).length cap -
        65536) from by
    have := sub64_big (a := ([t % 256] ++ bertlvLenBytes data.length).length)
      (b := cap) (by simp; omega) hcap2
    omega]
  rw [if_neg (show ¬ (65536 + _ < data.length) from by omega)]
  simp

theorem except_ok_bind {α β : Type} (a : α) (f : α → Except Int β) :
    (Except.ok a : Except Int α).bind f = f a := rfl

theorem except_ok_map {α β : Type} (a : α) (f : α → β) :
    (Except.ok a : Except Int α).map f = .ok (f a) := rfl

theorem okOr_some {α : Type} (e : Int) (a : α) : okOr e (some a) = .ok a := rfl

/-- One extract_coordinate call on a cursor standing `pre.length` bytes
into the raw signature, where the next `C.length` bytes are the
coordinate: the encoded INTEGER is `intEnc C` and the cursor advances
past the coordinate, plus the two trailer bytes on a v5.0 card. -/
theorem extract_coordinate_gen (cardType : Nat) (pre C rest : List Nat)
    (h0 : 0 < C.length) (h127 : C.length < 127)
    (hsz : pre.length + C.length + rest.length ≤ 18446744073709551615)
    (hv50 : cardType = SC_CARD_TYPE_CARDOS_V5_0 → 2 ≤ rest.length) :
    extract_coordinate cardType C.length ⟨pre ++ (C ++ rest), pre.length⟩ =
      .ok (intEnc C, ⟨pre ++ (C ++ rest),
        pre.length + C.length +
          (if cardType = SC_CARD_TYPE_CARDOS_V5_0 then 2 else 0)⟩) := by
  have hall : (pre ++ (C ++ rest)).length =
      pre.length + (C.length + rest.length) := by simp
  have hdrop : (pre ++ (C ++ rest)).drop pre.length = C ++ rest :=
    List.drop_left pre (C ++ rest)
  have hsub : sub64 (pre ++ (C ++ rest)).length pre.length =
      C.length + rest.length := by
    rw [sub64_eq (by omega) (by omega)]
    omega
  have htake : (C ++ rest).take C.length = C := List.take_left C rest
  have hgetd : (C ++ rest).getD 0 0 = C.getD 0 0 := by
    cases C with
    | nil => simp at h0
    | cons a t => simp [List.getD]
  unfold extract_coordinate
  rw [if_neg (show ¬ (sub64 (pre ++ (C ++ rest)).length pre.length <
      C.length ∨ C.length ≥ INT8_MAX) from by
    rw [hsub]
    simp only [INT8_MAX]
    omega)]
  simp only [hdrop, htake, hgetd]
  by_cases hct : cardType = SC_CARD_TYPE_CARDOS_V5_0
  · rw [if_pos hct, if_pos hct]
    have hsub2 : sub64 (pre ++ (C ++ rest)).length (pre.length + C.length) =
        rest.length := by
      rw [sub64_eq (by omega) (by omega)]
      omega
    rw [if_neg (show ¬ (sub64 (pre ++ (C ++ rest)).length
        (pre.length + C.length) < 2) from by
      rw [hsub2]
      have := hv50 hct
      omega)]
    unfold intEnc
    by_cases hhi : C.getD 0 0 &&& 0x80 ≠ 0
    · rw [if_pos hhi, if_pos hhi]
      have : (C.length + 1) % 256 = C.length + 1 := Nat.mod_eq_of_lt (by omega)
      rw [this]
    · rw [if_neg hhi, if_neg hhi]
      have : C.length % 256 = C.length := Nat.mod_eq_of_lt (by omega)
      rw [this]
  · rw [if_neg hct, if_neg hct]
    unfold intEnc
    have hz : pre.length + C.length + 0 = pre.length + C.length := by omega
    rw [hz]
    by_cases hhi : C.getD 0 0 &&& 0x80 ≠ 0
    · rw [if_pos hhi, if_pos hhi]
      have : (C.length + 1) % 256 = C.length + 1 := Nat.mod_eq_of_lt (by omega)
      rw [this]
    · rw [if_neg hhi, if_neg hhi]
      have : C.length % 256 = C.length := Nat.mod_eq_of_lt (by omega)
      rw [this]

theorem extract_coordinate_v50_at (pre C rest : List Nat)
    (h0 : 0 < C.length) (h127 : C.length < 127)
    (hsz : pre.length + C.length + rest.length ≤ 18446744073709551615)
    (hrest : 2 ≤ rest.length) :
    extract_coordinate SC_CARD_TYPE_CARDOS_V5_0 C.length
        ⟨pre ++ (C ++ rest), pre.length⟩ =
      .ok (intEnc C, ⟨pre ++ (C ++ rest), pre.length + C.length + 2⟩) := by
  have h := extract_coordinate_gen SC_CARD_TYPE_CARDOS_V5_0 pre C rest h0 h127
    hsz (fun _ => hrest)
  rw [if_pos rfl] at h
  exact h

theorem extract_coordinate_v53_at (pre C rest : List Nat)
    (h0 : 0 < C.length) (h127 : C.length < 127)
    (hsz : pre.length + C.length + rest.length ≤ 18446744073709551615) :
    extract_coordinate SC_CARD_TYPE_CARDOS_V5_3 C.length
        ⟨pre ++ (C ++ rest), pre.length⟩ =
      .ok (intEnc C, ⟨pre ++ (C ++ rest), pre.length + C.length⟩) := by
  have h := extract_coordinate_gen SC_CARD_TYPE_CARDOS_V5_3 pre C rest h0 h127
    hsz (by intro hcontra; simp [SC_CARD_TYPE_CARDOS_V5_3,
      SC_CARD_TYPE_CARDOS_V5_0] at hcontra)
  rw [if_neg (by simp [SC_CARD_TYPE_CARDOS_V5_3,
    SC_CARD_TYPE_CARDOS_V5_0])] at h
  simpa using h

theorem get_point_small (X Y : List Nat) (cap : Nat)
    (hn : X.length + Y.length ≤ 65535) (hcap : 4 < cap)
    (hcap2 : cap ≤ 4294967296) :
    get_point X Y ⟨cap, []⟩ =
      .ok ⟨cap, 0x30 :: (bertlvLenBytes (X ++ Y).length ++ (X ++ Y))⟩ := by
  unfold get_point
  have hmod : (X.length + Y.length) % 18446744073709551616 =
      X.length + Y.length := Nat.mod_eq_of_lt (by omega)
  rw [if_neg (show ¬ ((X.length + Y.length) % 18446744073709551616 <
      X.length ∨ (X.length + Y.length) % 18446744073709551616 >
      UINT16_MAX) from by
    rw [hmod]
    simp only [UINT16_MAX]
    omega)]
  rw [bertlv_put_tag_small (by simp; omega) hcap hcap2]
  rw [okOr_some]

/-! ## Claim theorems -/

/-- C2, code-bug evaluation: bertlv_put_tag does not bounds-check the
length payload.  With capacity 5 and an empty buffer, a 10-byte payload
is accepted: the function returns success after recording 12 bytes in a
5-byte buffer, because the final capacity guard computes
`bytes_used - size` (wrapping on `size_t`) instead of
`size - bytes_used`, so it never fires while `bytes_used < size`.  The
claim requires the call to fail with no write past the capacity. -/
theorem c2_bertlv_put_tag_overflow :
    bertlv_put_tag 0x30 [1, 1, 1, 1, 1, 1, 1, 1, 1, 1] ⟨5, []⟩ =
      some ⟨5, [0x30, 10, 1, 1, 1, 1, 1, 1, 1, 1, 1, 1]⟩ ∧
    ([0x30, 10, 1, 1, 1, 1, 1, 1, 1, 1, 1, 1] : List Nat).length > 5 := by
  decide

/-- C3: a raw coordinate `C` with `0 < |C| < 127` is encoded as the
ASN.1 INTEGER `02 (|C|+1) 00 C` when its first byte has the high bit
set and `02 |C| C` otherwise; the two encoded INTEGERs are concatenated
and wrapped under SEQUENCE tag 0x30 with BER-TLV length octets; and a
coordinate with raw length at least 127 is rejected. -/
theorem c3_coordinate_der_encoding :
    (∀ C rest : List Nat, 0 < C.length → C.length < 127 →
      C.length + rest.length ≤ 18446744073709551615 →
      extract_coordinate SC_CARD_TYPE_CARDOS_V5_3 C.length ⟨C ++ rest, 0⟩ =
        .ok (intEnc C, ⟨C ++ rest, C.length⟩) ∧
      intEnc C = (if C.getD 0 0 &&& 0x80 ≠ 0
        then 0x02 :: (C.length + 1) :: 0x00 :: C
        else 0x02 :: C.length :: C)) ∧
    (∀ (cardType n : Nat) (cur : SigCursor), 127 ≤ n →
      extract_coordinate cardType n cur = .error SC_ERROR_BUFFER_TOO_SMALL) ∧
    (∀ (X Y : List Nat) (cap : Nat), X.length + Y.length ≤ 65535 → 4 < cap →
      cap ≤ 4294967296 →
      get_point X Y ⟨cap, []⟩ =
        .ok ⟨cap, 0x30 :: (bertlvLenBytes (X ++ Y).length ++ (X ++ Y))⟩) := by
  refine ⟨?_, ?_, ?_⟩
  · intro C rest h0 h127 hsz
    constructor
    · have := extract_coordinate_gen SC_CARD_TYPE_CARDOS_V5_3 [] C rest h0 h127
        (by simp; omega)
        (by intro hcontra; simp [SC_CARD_TYPE_CARDOS_V5_3,
          SC_CARD_TYPE_CARDOS_V5_0] at hcontra)
      rw [if_neg (by simp [SC_CARD_TYPE_CARDOS_V5_3,
        SC_CARD_TYPE_CARDOS_V5_0])] at this
      simpa using this
    · rw [intEnc]
  · intro cardType n cur h
    unfold extract_coordinate
    rw [if_pos (Or.inr (by simp only [INT8_MAX]; omega))]
  · intro X Y cap h1 h2 h3
    exact get_point_small X Y cap h1 h2 h3

/-- C3 witness: the theorem applied to the one-byte coordinate 0x80
(high bit set), to an oversized raw length of 127 and to a concrete
pair of encoded INTEGERs. -/
theorem c3_coordinate_der_encoding_witness :
    (extract_coordinate SC_CARD_TYPE_CARDOS_V5_3 ([0x80] : List Nat).length
        ⟨[0x80] ++ [], 0⟩ =
      .ok (intEnc [0x80], ⟨[0x80] ++ [], ([0x80] : List Nat).length⟩) ∧
      intEnc [0x80] = (if ([0x80] : List Nat).getD 0 0 &&& 0x80 ≠ 0
        then 0x02 :: (([0x80] : List Nat).length + 1) :: 0x00 :: [0x80]
        else 0x02 :: ([0x80] : List Nat).length :: [0x80])) ∧
    extract_coordinate SC_CARD_TYPE_CARDOS_V5_0 127 ⟨[], 0⟩ =
      .error SC_ERROR_BUFFER_TOO_SMALL ∧
    get_point [2, 1, 5] [2, 1, 7] ⟨16, []⟩ =
      .ok ⟨16, 0x30 :: (bertlvLenBytes (([2, 1, 5] : List Nat) ++
        [2, 1, 7]).length ++ (([2, 1, 5] : List Nat) ++ [2, 1, 7]))⟩ :=
  ⟨c3_coordinate_der_encoding.1 [0x80] [] (by decide) (by decide) (by decide),
   c3_coordinate_der_encoding.2.1 SC_CARD_TYPE_CARDOS_V5_0 127 ⟨[], 0⟩
     (by decide),
   c3_coordinate_der_encoding.2.2 [2, 1, 5] [2, 1, 7] 16 (by decide)
     (by decide) (by decide)⟩

theorem intEnc_length (C : List Nat) : (intEnc C).length ≤ C.length + 3 := by
  unfold intEnc
  split <;> simp

/-- C4: encode_ec_sig returns INVALID_ARGUMENTS for every raw length
below 4 or odd; on a v5.0 card the raw response splits as
`R ‖ pad2 ‖ S ‖ pad2` with coordinate length `(siglen - 4) / 2` and the
two-byte trailers discarded, and on a v5.3 card as the two halves
`R ‖ S`; in both cases the output is the DER sequence of the two
encoded INTEGERs of the coordinates. -/
theorem c4_encode_ec_sig :
    (∀ (cardType sigbufsiz : Nat) (sig : List Nat),
      sig.length < 4 ∨ sig.length % 2 = 1 →
      encode_ec_sig cardType sig sigbufsiz =
        .error SC_ERROR_INVALID_ARGUMENTS) ∧
    (∀ (R S p1 p2 : List Nat) (cap : Nat),
      S.length = R.length → p1.length = 2 → p2.length = 2 →
      0 < R.length → R.length < 127 →
      (R ++ p1 ++ S ++ p2).length ≤ cap → cap ≤ 4294967296 →
      encode_ec_sig SC_CARD_TYPE_CARDOS_V5_0 (R ++ p1 ++ S ++ p2) cap =
        .ok (0x30 :: (bertlvLenBytes (intEnc R ++ intEnc S).length ++
          (intEnc R ++ intEnc S)))) ∧
    (∀ (R S : List Nat) (cap : Nat),
      S.length = R.length → 2 ≤ R.length → R.length < 127 →
      (R ++ S).length ≤ cap → 4 < cap → cap ≤ 4294967296 →
      encode_ec_sig SC_CARD_TYPE_CARDOS_V5_3 (R ++ S) cap =
        .ok (0x30 :: (bertlvLenBytes (intEnc R ++ intEnc S).length ++
          (intEnc R ++ intEnc S)))) := by
  refine ⟨?_, ?_, ?_⟩
  · intro cardType sigbufsiz sig h
    unfold encode_ec_sig
    rcases h with h4 | hodd
    · rw [if_pos (Or.inl h4)]
    · rw [if_pos (Or.inr (Or.inr (by omega)))]
  · intro R S p1 p2 cap hS hp1 hp2 h0 h127 hcap hcap2
    have hsl : (R ++ p1 ++ S ++ p2).length = 2 * R.length + 4 := by
      simp [hS, hp1, hp2]
      omega
    have hLen : ((R ++ p1 ++ S ++ p2).length - 4) / 2 = R.length := by
      rw [hsl]
      omega
    unfold encode_ec_sig
    rw [if_neg (by rw [hsl]; omega)]
    rw [if_pos rfl]
    simp only [except_ok_bind]
    rw [hLen]
    rw [show (⟨R ++ p1 ++ S ++ p2, 0⟩ : SigCursor) =
        ⟨[] ++ (R ++ (p1 ++ (S ++ p2))), ([] : List Nat).length⟩ from by
      simp]
    rw [extract_coordinate_v50_at [] R (p1 ++ (S ++ p2))
      h0 h127 (by simp [hS, hp1, hp2]; omega) (by simp [hp1])]
    simp only [except_ok_bind]
    rw [show (⟨[] ++ (R ++ (p1 ++ (S ++ p2))),
        ([] : List Nat).length + R.length + 2⟩ : SigCursor) =
        ⟨(R ++ p1) ++ (S ++ p2), (R ++ p1).length⟩ from by
      simp [hp1]]
    have hx := extract_coordinate_v50_at (R ++ p1) S p2
      (by omega) (by omega) (by simp [hS, hp1, hp2]; omega) (by omega)
    rw [show S.length = R.length from hS] at hx
    rw [hx]
    simp only [except_ok_bind]
    rw [get_point_small (intEnc R) (intEnc S) cap
      (by
        have h1 := intEnc_length R
        have h2 := intEnc_length S
        omega)
      (by omega) hcap2]
    simp only [except_ok_map]
  · intro R S cap hS h0 h127 hcap hcap4 hcap2
    have hsl : (R ++ S).length = 2 * R.length := by
      simp [hS]
      omega
    have hLen : (R ++ S).length / 2 = R.length := by
      rw [hsl]
      omega
    unfold encode_ec_sig
    rw [if_neg (by rw [hsl]; omega)]
    rw [if_neg (by simp [SC_CARD_TYPE_CARDOS_V5_0, SC_CARD_TYPE_CARDOS_V5_3]),
      if_pos rfl]
    simp only [except_ok_bind]
    rw [hLen]
    rw [show (⟨R ++ S, 0⟩ : SigCursor) =
        ⟨[] ++ (R ++ S), ([] : List Nat).length⟩ from by simp]
    rw [extract_coordinate_v53_at [] R S
      (by omega) h127 (by simp [hS]; omega)]
    simp only [except_ok_bind]
    rw [show (⟨[] ++ (R ++ S),
        ([] : List Nat).length + R.length⟩ : SigCursor) =
        ⟨R ++ (S ++ []), R.length⟩ from by simp]
    have hx := extract_coordinate_v53_at R S []
      (by omega) (by omega) (by simp [hS]; omega)
    rw [show S.length = R.length from hS] at hx
    rw [hx]
    simp only [except_ok_bind]
    rw [get_point_small (intEnc R) (intEnc S) cap
      (by
        have h1 := intEnc_length R
        have h2 := intEnc_length S
        omega)
      hcap4 hcap2]
    simp only [except_ok_map]

/-- C4 witness: the theorem applied to an odd 3-byte raw signature and
to concrete v5.0 and v5.3 raw signatures with 2-byte coordinates. -/
theorem c4_encode_ec_sig_witness :
    encode_ec_sig SC_CARD_TYPE_CARDOS_V5_3 [1, 2, 3] 64 =
      .error SC_ERROR_INVALID_ARGUMENTS ∧
    encode_ec_sig SC_CARD_TYPE_CARDOS_V5_0
        ([0x80, 1] ++ [0, 0] ++ [2, 3] ++ [0, 0]) 64 =
      .ok (0x30 :: (bertlvLenBytes (intEnc [0x80, 1] ++
        intEnc [2, 3]).length ++ (intEnc [0x80, 1] ++ intEnc [2, 3]))) ∧
    encode_ec_sig SC_CARD_TYPE_CARDOS_V5_3 ([0x80, 1] ++ [2, 3]) 64 =
      .ok (0x30 :: (bertlvLenBytes (intEnc [0x80, 1] ++
        intEnc [2, 3]).length ++ (intEnc [0x80, 1] ++ intEnc [2, 3]))) :=
  ⟨c4_encode_ec_sig.1 SC_CARD_TYPE_CARDOS_V5_3 64 [1, 2, 3]
     (Or.inl (by decide)),
   c4_encode_ec_sig.2.1 [0x80, 1] [2, 3] [0, 0] [0, 0] 64 (by decide)
     (by decide) (by decide) (by decide) (by decide) (by decide) (by decide),
   c4_encode_ec_sig.2.2 [0x80, 1] [2, 3] 64 (by decide) (by decide)
     (by decide) (by decide) (by decide) (by decide)⟩

/-- C5 counterexample: the literal 7-byte pattern the claim quotes,
`{AM_TAG, 0x01, 0xFF, DUMMY_TAG, DUMMY_LEN, ALWAYS_TAG, ALWAYS_LEN}`,
does not trigger the MF special case (the source requires a 9-byte
payload and only inspects bytes 5 through 8) — parsing it fails with
NO_CARD_SUPPORT instead of adding the mapped operations. -/
theorem c5_mf_pattern_counterexample :
    parse_df_arl [ARL_ACCESS_MODE_BYTE_TAG, 0x01, 0xFF, ARL_DUMMY_TAG,
        ARL_DUMMY_LEN, ARL_ALWAYS_TAG, ARL_ALWAYS_LEN] =
      .error SC_ERROR_NO_CARD_SUPPORT ∧
    SC_ERROR_NO_CARD_SUPPORT ≠ SC_SUCCESS := by
  decide

/-- C5, amended: the MF special case of parse_df_arl triggers on every
9-byte payload whose bytes 5 through 8 are
`DUMMY_TAG DUMMY_LEN ALWAYS_TAG ALWAYS_LEN`; it then adds every mapped
DF operation with method None and returns success. -/
theorem c5_mf_pattern (l : List Nat) (hlen : l.length = 9)
    (h5 : l.getD 5 0 = ARL_DUMMY_TAG) (h6 : l.getD 6 0 = ARL_DUMMY_LEN)
    (h7 : l.getD 7 0 = ARL_ALWAYS_TAG) (h8 : l.getD 8 0 = ARL_ALWAYS_LEN) :
    parse_df_arl l = .ok dfAllNone ∧
    ∀ row ∈ dfAclTable, ∀ op, row.2 = some op →
      (op, AcMethod.acNone, SC_AC_KEY_REF_NONE) ∈ dfAllNone := by
  constructor
  · unfold parse_df_arl
    rw [if_pos ⟨hlen, h5, h6, h7, h8⟩]
  · decide

/-- C5 witness: the amended theorem applied to the 9-byte MF payload
`80 01 FF 97 00 81 00 90 00`. -/
theorem c5_mf_pattern_witness :
    ([0x80, 0x01, 0xFF, 0x97, 0x00, 0x81, 0x00, 0x90, 0x00] :
      List Nat).length = 9 ∧
    (parse_df_arl [0x80, 0x01, 0xFF, 0x97, 0x00, 0x81, 0x00, 0x90, 0x00] =
        .ok dfAllNone ∧
      ∀ row ∈ dfAclTable, ∀ op, row.2 = some op →
        (op, AcMethod.acNone, SC_AC_KEY_REF_NONE) ∈ dfAllNone) :=
  ⟨by decide,
   c5_mf_pattern [0x80, 0x01, 0xFF, 0x97, 0x00, 0x81, 0x00, 0x90, 0x00]
     (by decide) (by decide) (by decide) (by decide) (by decide)⟩

/-- A DF file with an empty ACL list, used as concrete input below. -/
def dfEmptyFile : ScFile := ⟨SC_FILE_TYPE_DF, 0, 1, [], 0, []⟩

/-- The ARL the builder produces for `dfEmptyFile` (all eleven AM rows
default to Never, followed by the three command-scoped entries). -/
def dfEmptyArl : Buf :=
  ⟨128, [128, 1, 64, 151, 0, 128, 1, 32, 151, 0, 128, 1, 16, 151, 0,
    128, 1, 8, 151, 0, 128, 1, 4, 151, 0, 128, 1, 2, 151, 0, 128, 1, 5,
    151, 0, 128, 1, 36, 151, 0, 128, 1, 34, 151, 0, 128, 1, 33, 151, 0,
    128, 1, 18, 151, 0, 132, 4, 128, 16, 0, 0, 144, 0, 132, 4, 132, 154,
    1, 0, 144, 0, 132, 4, 132, 154, 2, 0, 144, 0]⟩

/-- C8 counterexample: the DF ARL does not end with two command-scoped
Always entries covering all three of PHASE CONTROL, ACCUMULATE (new)
and ACCUMULATE (append) — its final two 8-byte entries are the two
ACCUMULATE entries, and the PHASE CONTROL entry is neither of them (it
is the third-from-last entry). -/
theorem c8_df_arl_tail_counterexample :
    dfArlBuild dfEmptyFile = some dfEmptyArl ∧
    dfEmptyArl.data.length = 79 ∧
    dfEmptyArl.data.drop 63 =
      cmdAlwaysChunk CARDOS5_ACCUMULATE_OBJECT_DATA_CLA
        CARDOS5_ACCUMULATE_OBJECT_DATA_INS
        CARDOS5_ACCUMULATE_OBJECT_DATA_P1_NEW 0 ++
      cmdAlwaysChunk CARDOS5_ACCUMULATE_OBJECT_DATA_CLA
        CARDOS5_ACCUMULATE_OBJECT_DATA_INS
        CARDOS5_ACCUMULATE_OBJECT_DATA_P1_APPEND 0 ∧
    cmdAlwaysChunk CARDOS5_PHASE_CONTROL_CLA CARDOS5_PHASE_CONTROL_INS
        CARDOS5_PHASE_CONTROL_P1_TOGGLE CARDOS5_PHASE_CONTROL_P2_TOGGLE ≠
      cmdAlwaysChunk CARDOS5_ACCUMULATE_OBJECT_DATA_CLA
        CARDOS5_ACCUMULATE_OBJECT_DATA_INS
        CARDOS5_ACCUMULATE_OBJECT_DATA_P1_NEW 0 ∧
    cmdAlwaysChunk CARDOS5_PHASE_CONTROL_CLA CARDOS5_PHASE_CONTROL_INS
        CARDOS5_PHASE_CONTROL_P1_TOGGLE CARDOS5_PHASE_CONTROL_P2_TOGGLE ≠
      cmdAlwaysChunk CARDOS5_ACCUMULATE_OBJECT_DATA_CLA
        CARDOS5_ACCUMULATE_OBJECT_DATA_INS
        CARDOS5_ACCUMULATE_OBJECT_DATA_P1_APPEND 0 := by
  decide

/-- C8, amended: the ARL built for every DF ends with three
command-scoped Always entries — PHASE CONTROL toggle, ACCUMULATE OBJECT
DATA with P1 = new, and ACCUMULATE OBJECT DATA with P1 = append —
appended after the per-AM-entry predicates, each entry being
`CMD_TAG 0x04 CLA INS P1 P2` followed by `ALWAYS_TAG 0x00`. -/
theorem c8_df_arl_tail (f : ScFile) (b : Buf) (h : dfArlBuild f = some b) :
    ∃ pre, b.data = pre ++
      (cmdAlwaysChunk CARDOS5_PHASE_CONTROL_CLA CARDOS5_PHASE_CONTROL_INS
        CARDOS5_PHASE_CONTROL_P1_TOGGLE CARDOS5_PHASE_CONTROL_P2_TOGGLE ++
      cmdAlwaysChunk CARDOS5_ACCUMULATE_OBJECT_DATA_CLA
        CARDOS5_ACCUMULATE_OBJECT_DATA_INS
        CARDOS5_ACCUMULATE_OBJECT_DATA_P1_NEW 0 ++
      cmdAlwaysChunk CARDOS5_ACCUMULATE_OBJECT_DATA_CLA
        CARDOS5_ACCUMULATE_OBJECT_DATA_INS
        CARDOS5_ACCUMULATE_OBJECT_DATA_P1_APPEND 0) := by
  rcases dfArlBuild_some h with ⟨hdata, _, _⟩
  refine ⟨dfUpdChunk f ++ dfTableBytes f, ?_⟩
  rw [hdata]
  simp [dfTailChunks]

theorem land127_land128 (x : Nat) : (x &&& 127) &&& 128 = 0 := by
  apply land128_lt
  have h : x &&& 127 ≤ 127 := Nat.and_le_right
  omega

theorem parseEfArlLoop_chv_refs : ∀ (l : List Nat) (es : List PEntry),
    parseEfArlLoop l = .ok es → ∀ p ∈ es, p.2.1 = AcMethod.acChv →
      p.2.2 &&& 128 = 0 := by
  intro l
  induction l using parseEfArlLoop.induct
  all_goals intro es' hok p hp hchv
  all_goals rw [parseEfArlLoop] at hok
  all_goals simp_all [land127_land128, -List.find?_eq_none]
  all_goals try subst hok
  all_goals try (split at hok <;> simp_all [-List.find?_eq_none])
  all_goals try subst hok
  all_goals try (simp only [List.mem_cons] at hp)
  all_goals try (rcases hp with rfl | hp)
  all_goals simp_all [land127_land128, -List.find?_eq_none]

theorem parseDfArlLoop_chv_refs : ∀ (l : List Nat) (es : List PEntry),
    parseDfArlLoop l = .ok es → ∀ p ∈ es, p.2.1 = AcMethod.acChv →
      p.2.2 &&& 128 = 0 := by
  intro l
  induction l using parseDfArlLoop.induct
  all_goals intro es' hok p hp hchv
  all_goals rw [parseDfArlLoop] at hok
  all_goals simp_all [land127_land128, -List.find?_eq_none]
  all_goals try (split at hok)
  all_goals try subst hok
  all_goals try (simp only [List.mem_cons] at hp)
  all_goals try (rcases hp with rfl | hp)
  all_goals try simp_all [land127_land128, -List.find?_eq_none]
  all_goals try (split at hok)
  all_goals try subst hok
  all_goals try (simp only [List.mem_cons] at hp)
  all_goals try (rcases hp with rfl | hp)
  all_goals simp_all [land127_land128, -List.find?_eq_none]

/-- C8 witness: the amended theorem applied to the empty-ACL DF. -/
theorem c8_df_arl_tail_witness :
    dfArlBuild dfEmptyFile = some dfEmptyArl ∧
    ∃ pre, dfEmptyArl.data = pre ++
      (cmdAlwaysChunk CARDOS5_PHASE_CONTROL_CLA CARDOS5_PHASE_CONTROL_INS
        CARDOS5_PHASE_CONTROL_P1_TOGGLE CARDOS5_PHASE_CONTROL_P2_TOGGLE ++
      cmdAlwaysChunk CARDOS5_ACCUMULATE_OBJECT_DATA_CLA
        CARDOS5_ACCUMULATE_OBJECT_DATA_INS
        CARDOS5_ACCUMULATE_OBJECT_DATA_P1_NEW 0 ++
      cmdAlwaysChunk CARDOS5_ACCUMULATE_OBJECT_DATA_CLA
        CARDOS5_ACCUMULATE_OBJECT_DATA_INS
        CARDOS5_ACCUMULATE_OBJECT_DATA_P1_APPEND 0) :=
  ⟨by decide, c8_df_arl_tail dfEmptyFile dfEmptyArl (by decide)⟩

/-- A working EF with a CHV read entry and a Never update entry, used
as concrete input below. -/
def wEfFile : ScFile :=
  ⟨SC_FILE_TYPE_WORKING_EF, 256, 0x5031, [], SC_FILE_EF_TRANSPARENT,
    [(SC_AC_OP_READ, ⟨.acChv, 5⟩), (SC_AC_OP_UPDATE, ⟨.acNever, 0⟩)]⟩

/-- The ARL the builder produces for `wEfFile`. -/
def wEfArl : Buf :=
  ⟨96, [128, 1, 64, 151, 0, 128, 1, 32, 151, 0, 128, 1, 16, 151, 0,
    128, 1, 8, 151, 0, 128, 1, 4, 151, 0, 128, 1, 2, 151, 0,
    128, 1, 1, 164, 6, 131, 1, 5, 149, 1, 8, 128, 1, 50, 151, 0,
    128, 1, 49, 151, 0]⟩

/-- C1 witness: the round-trip theorem applied to `wEfFile`. -/
theorem c1_fcp_arl_roundtrip_witness :
    (wEfFile.size ≤ 65535 ∧ (0 ≤ wEfFile.id ∧ wEfFile.id ≤ 65535) ∧
      legalAclEntries wEfFile = true ∧
      ((wEfFile.ftype = SC_FILE_TYPE_DF ∧ dfArlBuild wEfFile = some wEfArl) ∨
        (wEfFile.ftype = SC_FILE_TYPE_WORKING_EF ∧
          efArlBuild wEfFile = some wEfArl))) ∧
    (∃ es, parse_arl wEfFile.ftype wEfArl.data = .ok es ∧
      (wEfFile.ftype = SC_FILE_TYPE_DF →
        ∀ row ∈ dfAclTable, ∀ op, row.2 = some op →
          (∀ e, sc_file_get_acl_entry wEfFile op = some e →
            (op, (collapse e).1, (collapse e).2) ∈ es) ∧
          (sc_file_get_acl_entry wEfFile op = none →
            (op, AcMethod.acNever, SC_AC_KEY_REF_NONE) ∈ es)) ∧
      (wEfFile.ftype = SC_FILE_TYPE_WORKING_EF →
        ∀ row ∈ efAclTable, ∀ op, row.2 = some op →
          (∀ e, sc_file_get_acl_entry wEfFile op = some e →
            (op, (collapse e).1, (collapse e).2) ∈ es) ∧
          (sc_file_get_acl_entry wEfFile op = none →
            (op, AcMethod.acNever, SC_AC_KEY_REF_NONE) ∈ es))) :=
  ⟨⟨by decide, ⟨by decide, by decide⟩, by decide,
     Or.inr ⟨by decide, by decide⟩⟩,
   c1_fcp_arl_roundtrip wEfFile wEfArl (by decide) ⟨by decide, by decide⟩
     (by decide) (Or.inr ⟨by decide, by decide⟩)⟩

/-- A working EF whose read entry carries the Term method, used as the
concrete input of the C1 counterexample. -/
def wTermFile : ScFile :=
  ⟨SC_FILE_TYPE_WORKING_EF, 0, 1, [], SC_FILE_EF_TRANSPARENT,
    [(SC_AC_OP_READ, ⟨.acTerm, 5⟩)]⟩

/-- The ARL the builder produces for `wTermFile`. -/
def wTermArl : Buf :=
  ⟨96, [128, 1, 64, 151, 0, 128, 1, 32, 151, 0, 128, 1, 16, 151, 0,
    128, 1, 8, 151, 0, 128, 1, 4, 151, 0, 128, 1, 2, 151, 0,
    128, 1, 1, 164, 6, 131, 1, 5, 149, 1, 8, 128, 1, 50, 151, 0,
    128, 1, 49, 151, 0]⟩

/-- C1 counterexample: a legal EF whose read entry has method Term is
not reproduced by the round trip as the claim states — the parsed file
holds a CHV entry for read, and the original `(read, Term, 5)` entry is
absent from the decoded entries. -/
theorem c1_fcp_arl_roundtrip_counterexample :
    legalAclEntries wTermFile = true ∧
    wTermFile.ftype = SC_FILE_TYPE_WORKING_EF ∧
    efArlBuild wTermFile = some wTermArl ∧
    parse_arl wTermFile.ftype wTermArl.data = .ok
      [(SC_AC_OP_DELETE, AcMethod.acNever, SC_AC_KEY_REF_NONE),
       (SC_AC_OP_REHABILITATE, AcMethod.acNever, SC_AC_KEY_REF_NONE),
       (SC_AC_OP_INVALIDATE, AcMethod.acNever, SC_AC_KEY_REF_NONE),
       (SC_AC_OP_WRITE, AcMethod.acNever, SC_AC_KEY_REF_NONE),
       (SC_AC_OP_UPDATE, AcMethod.acNever, SC_AC_KEY_REF_NONE),
       (SC_AC_OP_READ, AcMethod.acChv, 5)] ∧
    sc_file_get_acl_entry wTermFile SC_AC_OP_READ =
      some ⟨AcMethod.acTerm, 5⟩ ∧
    (SC_AC_OP_READ, AcMethod.acTerm, 5) ∉
      [(SC_AC_OP_DELETE, AcMethod.acNever, SC_AC_KEY_REF_NONE),
       (SC_AC_OP_REHABILITATE, AcMethod.acNever, SC_AC_KEY_REF_NONE),
       (SC_AC_OP_INVALIDATE, AcMethod.acNever, SC_AC_KEY_REF_NONE),
       (SC_AC_OP_WRITE, AcMethod.acNever, SC_AC_KEY_REF_NONE),
       (SC_AC_OP_UPDATE, AcMethod.acNever, SC_AC_KEY_REF_NONE),
       (SC_AC_OP_READ, AcMethod.acChv, 5)] := by
  decide

/-- C6: pin_cmd rejects a caller-supplied reference that already has
the backtrack bit with INCORRECT_PARAMETERS and delegates nothing;
otherwise it delegates the reference with the backtrack bit set; and
every CHV key reference stored in entries produced by the ARL decoders
has the backtrack bit cleared. -/
theorem c6_pin_backtrack :
    (∀ r : Nat, r &&& BACKTRACK_PIN ≠ 0 →
      cardos5_pin_cmd r = .error SC_ERROR_INCORRECT_PARAMETERS) ∧
    (∀ r : Nat, r &&& BACKTRACK_PIN = 0 →
      cardos5_pin_cmd r = .ok (r ||| BACKTRACK_PIN)) ∧
    (∀ (l : List Nat) (es : List PEntry), parse_df_arl l = .ok es →
      ∀ p ∈ es, p.2.1 = AcMethod.acChv → p.2.2 &&& BACKTRACK_PIN = 0) ∧
    (∀ (l : List Nat) (es : List PEntry), parse_ef_arl l = .ok es →
      ∀ p ∈ es, p.2.1 = AcMethod.acChv → p.2.2 &&& BACKTRACK_PIN = 0) := by
  refine ⟨?_, ?_, ?_, ?_⟩
  · intro r h
    unfold cardos5_pin_cmd
    rw [if_pos h]
  · intro r h
    unfold cardos5_pin_cmd
    rw [if_neg (fun hc => hc h)]
  · intro l es hok p hp hchv
    unfold parse_df_arl at hok
    split at hok
    · cases hok
      exact (by decide : ∀ q ∈ dfAllNone, q.2.1 = AcMethod.acChv →
        q.2.2 &&& BACKTRACK_PIN = 0) p hp hchv
    · simp only [BACKTRACK_PIN]
      exact parseDfArlLoop_chv_refs l es hok p hp hchv
  · intro l es hok p hp hchv
    unfold parse_ef_arl at hok
    simp only [BACKTRACK_PIN]
    exact parseEfArlLoop_chv_refs l es hok p hp hchv

/-- C6 witness: the theorem applied to the references 0x81 and 0x01 and
to a one-entry EF ARL with pin reference 5. -/
theorem c6_pin_backtrack_witness :
    cardos5_pin_cmd 0x81 = .error SC_ERROR_INCORRECT_PARAMETERS ∧
    cardos5_pin_cmd 0x01 = .ok (0x01 ||| BACKTRACK_PIN) ∧
    (∀ p ∈ [(SC_AC_OP_READ, AcMethod.acChv, 5)],
      p.2.1 = AcMethod.acChv → p.2.2 &&& BACKTRACK_PIN = 0) :=
  ⟨c6_pin_backtrack.1 0x81 (by decide),
   c6_pin_backtrack.2.1 0x01 (by decide),
   c6_pin_backtrack.2.2.2 [128, 1, 1, 164, 6, 131, 1, 5, 149, 1, 8]
     [(SC_AC_OP_READ, AcMethod.acChv, 5)] (by decide)⟩

/-- C7: select_file rejects every path whose first two bytes are not
`3F 00` with INVALID_ARGUMENTS; an accepted 2-byte path is sent as a
FILE_ID select carrying `3F 00`, a longer accepted path as a FULL_PATH
select carrying the path with the leading MF identifier stripped; P2
requests FCI exactly when the caller wants the file back. -/
theorem c7_select_file :
    (∀ (path : ScPath) (w : Bool),
      path.value.getD 0 0 ≠ 0x3F ∨ path.value.getD 1 0 ≠ 0x00 →
      cardos5_select_file path w = .error SC_ERROR_INVALID_ARGUMENTS) ∧
    (∀ w : Bool,
      cardos5_select_file ⟨SC_PATH_TYPE_PATH, [0x3F, 0x00]⟩ w =
        .ok ⟨CARDOS5_SELECT_INS, CARDOS5_SELECT_P1_FILE_ID,
          (if w then CARDOS5_SELECT_P2_FCI else CARDOS5_SELECT_P2_NO_RESPONSE),
          2, [0x3F, 0x00], w⟩) ∧
    (∀ (rest : List Nat) (w : Bool), rest ≠ [] →
      cardos5_select_file ⟨SC_PATH_TYPE_PATH, 0x3F :: 0x00 :: rest⟩ w =
        .ok ⟨CARDOS5_SELECT_INS, CARDOS5_SELECT_P1_FULL_PATH,
          (if w then CARDOS5_SELECT_P2_FCI else CARDOS5_SELECT_P2_NO_RESPONSE),
          rest.length, rest, w⟩) := by
  refine ⟨?_, ?_, ?_⟩
  · intro path w h
    unfold cardos5_select_file
    rcases h with h | h
    · rw [if_pos (Or.inr (Or.inr (Or.inl h)))]
    · rw [if_pos (Or.inr (Or.inr (Or.inr h)))]
  · intro w
    cases w <;> decide
  · intro rest w h
    have hne : (0x3F :: 0x00 :: rest).length ≠ 2 := by
      simp only [List.length_cons]
      intro hcontra
      apply h
      have : rest.length = 0 := by omega
      exact List.length_eq_zero.mp this
    unfold cardos5_select_file
    rw [if_neg (by
      simp only [List.getD_cons_zero, List.getD_cons_succ, List.length_cons]
      push_neg
      refine ⟨rfl, by omega, rfl, rfl⟩)]
    rw [if_neg hne]
    cases w <;> simp

/-- C7 witness: the theorem applied to a path starting `2F 00`, to the
bare MF path and to the path `3F 00 50 31`. -/
theorem c7_select_file_witness :
    cardos5_select_file ⟨SC_PATH_TYPE_PATH, [0x2F, 0x00]⟩ true =
      .error SC_ERROR_INVALID_ARGUMENTS ∧
    cardos5_select_file ⟨SC_PATH_TYPE_PATH, [0x3F, 0x00]⟩ true =
      .ok ⟨CARDOS5_SELECT_INS, CARDOS5_SELECT_P1_FILE_ID,
        (if true then CARDOS5_SELECT_P2_FCI
          else CARDOS5_SELECT_P2_NO_RESPONSE), 2, [0x3F, 0x00], true⟩ ∧
    cardos5_select_file ⟨SC_PATH_TYPE_PATH, 0x3F :: 0x00 :: [0x50, 0x31]⟩
        false =
      .ok ⟨CARDOS5_SELECT_INS, CARDOS5_SELECT_P1_FULL_PATH,
        (if false then CARDOS5_SELECT_P2_FCI
          else CARDOS5_SELECT_P2_NO_RESPONSE),
        ([0x50, 0x31] : List Nat).length, [0x50, 0x31], false⟩ :=
  ⟨c7_select_file.1 ⟨SC_PATH_TYPE_PATH, [0x2F, 0x00]⟩ true
     (Or.inl (by decide)),
   c7_select_file.2.1 true,
   c7_select_file.2.2 [0x50, 0x31] false (by decide)⟩

/-- C9: set_security_env clears the stored algorithm slot before doing
anything else and records the new algorithm only after the card reports
success, so every failing call leaves the slot unset; and
compute_signature with an unset slot fails with INVALID_ARGUMENTS
before transmitting anything. -/
theorem c9_set_security_env_not_atomic :
    (∀ (operation algorithm : Nat) (txOk swOk : Bool),
      (cardos5_set_security_env operation algorithm txOk swOk).2 ≠
        .ok () →
      (cardos5_set_security_env operation algorithm txOk swOk).1 =
        UINT_MAX) ∧
    (∀ (operation algorithm : Nat) (txOk swOk : Bool),
      (cardos5_set_security_env operation algorithm txOk swOk).2 = .ok () →
      (cardos5_set_security_env operation algorithm txOk swOk).1 =
        algorithm) ∧
    (∀ (cardType datalen outlen : Nat) (txOk swOk : Bool) (resp : List Nat),
      cardos5_compute_signature cardType UINT_MAX datalen outlen txOk swOk
        resp = (.error SC_ERROR_INVALID_ARGUMENTS, false)) := by
  refine ⟨?_, ?_, ?_⟩
  · intro op alg tx sw h
    simp only [cardos5_set_security_env] at h ⊢
    split_ifs at h ⊢ <;> simp_all
  · intro op alg tx sw h
    simp only [cardos5_set_security_env] at h ⊢
    split_ifs at h ⊢ <;> simp_all
  · intro cardType datalen outlen tx sw resp
    unfold cardos5_compute_signature
    rw [if_pos rfl]

/-- C9 witness: the theorem applied to a failing transport, to a
successful call recording the EC algorithm, and to a compute_signature
call in the unset state. -/
theorem c9_set_security_env_not_atomic_witness :
    ((cardos5_set_security_env SC_SEC_OPERATION_SIGN SC_ALGORITHM_EC false
        true).2 ≠ .ok () ∧
      (cardos5_set_security_env SC_SEC_OPERATION_SIGN SC_ALGORITHM_EC false
        true).1 = UINT_MAX) ∧
    ((cardos5_set_security_env SC_SEC_OPERATION_SIGN SC_ALGORITHM_EC true
        true).2 = .ok () ∧
      (cardos5_set_security_env SC_SEC_OPERATION_SIGN SC_ALGORITHM_EC true
        true).1 = SC_ALGORITHM_EC) ∧
    cardos5_compute_signature SC_CARD_TYPE_CARDOS_V5_3 UINT_MAX 8 16 true
      true [] = (.error SC_ERROR_INVALID_ARGUMENTS, false) :=
  ⟨⟨by decide,
    c9_set_security_env_not_atomic.1 SC_SEC_OPERATION_SIGN SC_ALGORITHM_EC
      false true (by decide)⟩,
   ⟨by decide,
    c9_set_security_env_not_atomic.2.1 SC_SEC_OPERATION_SIGN SC_ALGORITHM_EC
      true true (by decide)⟩,
   c9_set_security_env_not_atomic.2.2 SC_CARD_TYPE_CARDOS_V5_3 8 16 true
     true []⟩

/-- C10 counterexample: a compute_signature call with `outlen < datalen`
but an unset algorithm slot fails with INVALID_ARGUMENTS, not
BUFFER_TOO_SMALL — the driver-state guard runs first, so the claim as
stated (BUFFER_TOO_SMALL whenever `outlen < datalen`) is false. -/
theorem c10_compute_signature_counterexample :
    cardos5_compute_signature SC_CARD_TYPE_CARDOS_V5_3 UINT_MAX 1 0 true
      true [] = (.error SC_ERROR_INVALID_ARGUMENTS, false) ∧
    (0 : Nat) < 1 ∧
    SC_ERROR_INVALID_ARGUMENTS ≠ SC_ERROR_BUFFER_TOO_SMALL := by
  decide

/-- C10, amended: whenever the stored algorithm slot is set,
compute_signature with `outlen < datalen` fails with BUFFER_TOO_SMALL
before transmitting any APDU, regardless of card type, transport
outcome or response — even for EC signatures whose encoded result could
fit. -/
theorem c10_compute_signature_buffer_guard (cardType cse datalen outlen : Nat)
    (txOk swOk : Bool) (resp : List Nat) (hcse : cse ≠ UINT_MAX)
    (hlen : outlen < datalen) :
    cardos5_compute_signature cardType cse datalen outlen txOk swOk resp =
      (.error SC_ERROR_BUFFER_TOO_SMALL, false) := by
  unfold cardos5_compute_signature
  rw [if_neg hcse, if_pos hlen]

/-- C10 witness: the amended theorem applied with the RSA algorithm
set, a 2-byte input and a 1-byte output buffer. -/
theorem c10_compute_signature_buffer_guard_witness :
    SC_ALGORITHM_RSA ≠ UINT_MAX ∧ (1 : Nat) < 2 ∧
    cardos5_compute_signature SC_CARD_TYPE_CARDOS_V5_0 SC_ALGORITHM_RSA 2 1
      true true [] = (.error SC_ERROR_BUFFER_TOO_SMALL, false) :=
  ⟨by decide, by decide,
   c10_compute_signature_buffer_guard SC_CARD_TYPE_CARDOS_V5_0
     SC_ALGORITHM_RSA 2 1 true true [] (by decide) (by decide)⟩

end Cardos5
